import Mathlib

/-!
# Light HAL (`light/Light.cpp`): dispatch and LED state encoding

A shallow embedding of `src/light/Light.cpp`.  The stateful parts of the
program (the `already_warned` static of `write_str`, the log, and the device
files) are threaded explicitly through a `World` value.  The kernel side of the
device files is an arbitrary outcome function, so every statement below holds
whatever `open`/`write` answer.
-/

namespace Light

/-! ## Data model -/

/-- Modelled from the spec: the HIDL enumeration `Type` of
`android.hardware.light@2.0` (declared in `types.hal`, not in `Light.cpp`).  It is
an `int32_t`-backed enumeration, so a value is kept as its number; the named
enumerators are the constants below. -/
structure LightType where
  val : Int
deriving DecidableEq, Repr

namespace LightType
def BACKLIGHT : LightType := ⟨0⟩
def KEYBOARD : LightType := ⟨1⟩
def BUTTONS : LightType := ⟨2⟩
def BATTERY : LightType := ⟨3⟩
def NOTIFICATIONS : LightType := ⟨4⟩
def ATTENTION : LightType := ⟨5⟩
def BLUETOOTH : LightType := ⟨6⟩
def WIFI : LightType := ⟨7⟩
end LightType

/-- Modelled from the spec: the HIDL enumeration `Flash` (`types.hal`), an
`int32_t`-backed enumeration with the enumerators `NONE`, `TIMED`, `HARDWARE`. -/
structure Flash where
  val : Int
deriving DecidableEq, Repr

namespace Flash
def NONE : Flash := ⟨0⟩
def TIMED : Flash := ⟨1⟩
def HARDWARE : Flash := ⟨2⟩
end Flash

/-- Modelled from the spec: the HIDL enumeration `Brightness` (`types.hal`);
`Light.cpp` never reads it. -/
structure Brightness where
  val : Int
deriving DecidableEq, Repr

/-- Modelled from the spec: the HIDL enumeration `Status` (`types.hal`). -/
inductive Status
  | SUCCESS
  | LIGHT_NOT_SUPPORTED
  | BRIGHTNESS_NOT_SUPPORTED
  | UNKNOWN
deriving DecidableEq, Repr

/-- Modelled from the spec: the HIDL struct `LightState` (`types.hal`):
`uint32_t color`, `Flash flashMode`, `int32_t flashOnMs`, `int32_t flashOffMs`,
`Brightness brightnessMode`. -/
structure LightState where
  color : Nat
  flashMode : Flash
  flashOnMs : Int
  flashOffMs : Int
  brightnessMode : Brightness
deriving DecidableEq, Repr

/-- The value fits an `int32_t`. -/
def IsInt32 (x : Int) : Prop := -2147483648 ≤ x ∧ x ≤ 2147483647

instance (x : Int) : Decidable (IsInt32 x) := by
  unfold IsInt32; infer_instance

/-! ## Constants of `Light.cpp` -/

def RED_LED_FILE : String := "/sys/class/leds/red/brightness"
def GREEN_LED_FILE : String := "/sys/class/leds/green/brightness"
def RED_BLINK_FILE : String := "/sys/class/leds/red/blink"
def GREEN_BLINK_FILE : String := "/sys/class/leds/green/blink"
def LED_LIGHT_OFF : Int := 0

def LEDS : String := "/sys/class/backlight/"
def LCD_LED : String := LEDS ++ "psb-bl/"
def BRIGHTNESS : String := "brightness"

/-! ## The world outside the process -/

/-- What the kernel answers when a control file is opened and written: either the
open fails (with `errno`), or the file opens and `write` returns `amt` (`-1` on
error, with `errno`). -/
inductive OpenOutcome
  | openFails (errno : Int)
  | written (amt : Int) (errno : Int)
deriving DecidableEq, Repr

/-- One device write: the string handed to the write primitive for a control
path.  A write is recorded when the primitive is called, whether or not the
kernel then accepts it. -/
structure DeviceWrite where
  path : String
  value : String
deriving DecidableEq, Repr

/-- One `ALOGE` call, kept as its format and arguments. -/
inductive LogEntry
  /-- `ALOGE("write_str failed to open %s", path)` -/
  | writeStrOpenFailed (path : String)
  /-- `ALOGE("set_light_locked colorRGB=%08X, red=%d, green=%d, blink=%d", ...)` -/
  | setLightLocked (colorRGB : Nat) (red green blink : Int)
  /-- `ALOGE("failed to write %s to %s", value, path)` -/
  | setFailed (value path : String)
deriving DecidableEq, Repr

/-- State threaded through the program: the kernel's answers (`dev n path` is the
outcome of the `n`-th device write when it goes to `path`), the function-local
static `already_warned` of `write_str`, the log, and the trace of device writes. -/
structure World where
  dev : Nat → String → OpenOutcome
  already_warned : Int
  log : List LogEntry
  writes : List DeviceWrite

/-! ## Formatting -/

/-- The conversion `%d` of `printf` (and `std::to_string(int)`): decimal digits,
with a leading minus sign for a negative value. -/
def fmt_d (v : Int) : String :=
  if v < 0 then "-" ++ Nat.repr v.natAbs else Nat.repr v.toNat

/-- `std::snprintf(buffer, size, ...)`: what the buffer holds afterwards, namely
at most `size - 1` characters of the formatted text `s`. -/
def snprintf (size : Nat) (s : String) : String :=
  ⟨s.data.take (size - 1)⟩

/-! ## Device-write primitives -/

/-- `write_str(path, str)`, lines 66-82. -/
def write_str (path str : String) (w : World) : Int × World :=
  let w1 : World := { w with writes := w.writes ++ [⟨path, str⟩] }
  match w.dev w.writes.length path with
  | .written amt errno => (if amt = -1 then -errno else 0, w1)
  | .openFails errno =>
    if w1.already_warned = 0 then
      (-errno, { w1 with log := w1.log ++ [.writeStrOpenFailed path], already_warned := 1 })
    else
      (-errno, w1)

/-- `write_int(path, value)`, lines 85-89. -/
def write_int (path : String) (value : Int) (w : World) : Int × World :=
  write_str path (snprintf 20 (fmt_d value ++ "\n")) w

/-- `write_blink(path, value, on_ms, off_ms)`, lines 92-96. -/
def write_blink (path : String) (value on_ms off_ms : Int) (w : World) : Int × World :=
  write_str path
    (snprintf 100 (fmt_d value ++ " " ++ fmt_d on_ms ++ " " ++ fmt_d off_ms ++ "\n")) w

/-- `set(std::string path, std::string value)`, lines 150-159: the stream is
opened; when that fails the failure is logged, otherwise `value` is written. -/
def set_str (path value : String) (w : World) : World :=
  let w1 : World := { w with writes := w.writes ++ [⟨path, value⟩] }
  match w.dev w.writes.length path with
  | .openFails _ => { w1 with log := w1.log ++ [.setFailed value path] }
  | .written _ _ => w1

/-- `set(std::string path, int value)`, lines 161-163. -/
def set_int (path : String) (value : Int) (w : World) : World :=
  set_str path (fmt_d value) w

/-! ## The LED encoder -/

/-- The `switch (state.flashMode)` of `set_light_locked`, lines 106-115. -/
def blinkOf (mode : Flash) : Int :=
  if mode = Flash.TIMED then 1
  else if mode = Flash.HARDWARE then 1
  else 0

/-- The decomposition of `colorRGB` and the `if (blue)` overwrite of
`set_light_locked`, lines 117-123: the pair `(red, green)` afterwards. -/
def ledChannels (colorRGB : Nat) : Int × Int :=
  let red : Nat := (colorRGB >>> 16) &&& 0xFF
  let green : Nat := (colorRGB >>> 8) &&& 0xFF
  let blue : Nat := colorRGB &&& 0xFF
  if blue ≠ 0 then ((blue : Int), (blue : Int)) else ((red : Int), (green : Int))

/-- `set_light_locked(state)`, lines 99-144. -/
def set_light_locked (state : LightState) (w : World) : Int × World :=
  let colorRGB := state.color
  let blink := blinkOf state.flashMode
  let red := (ledChannels colorRGB).1
  let green := (ledChannels colorRGB).2
  let w0 : World := { w with log := w.log ++ [.setLightLocked colorRGB red green blink] }
  if blink ≠ 0 then
    let w1 := (write_int RED_LED_FILE LED_LIGHT_OFF w0).2
    let w2 := (write_int GREEN_LED_FILE LED_LIGHT_OFF w1).2
    let w3 := (write_blink RED_BLINK_FILE (if red ≠ 0 then 1 else 0)
      state.flashOnMs state.flashOffMs w2).2
    let w4 := (write_blink GREEN_BLINK_FILE (if green ≠ 0 then 1 else 0)
      state.flashOnMs state.flashOffMs w3).2
    (0, w4)
  else
    let w1 := (write_int RED_BLINK_FILE blink w0).2
    let w2 := (write_int GREEN_BLINK_FILE blink w1).2
    let w3 := (write_int RED_LED_FILE LED_LIGHT_OFF w2).2
    let w4 := (write_int GREEN_LED_FILE LED_LIGHT_OFF w3).2
    let w5 := (write_int RED_LED_FILE red w4).2
    let w6 := (write_int GREEN_LED_FILE green w5).2
    (0, w6)

/-! ## Handlers and the registry -/

/-- `handleBacklight(state)`, lines 165-168. -/
def handleBacklight (state : LightState) (w : World) : World :=
  let brightness : Nat := state.color &&& 0xFF
  set_int (LCD_LED ++ BRIGHTNESS) (brightness : Int) w

/-- `handleNotification(state)`, lines 170-172. -/
def handleNotification (state : LightState) (w : World) : World :=
  (set_light_locked state w).2

/-- The mapped type of `lights`: `std::function<void(const LightState&)>`. -/
abbrev Handler := LightState → World → World

/-- Insertion into a `std::map<Type, ...>`, kept as the list of its entries in
ascending key order; an entry whose key is already present is not replaced. -/
def mapInsert (k : LightType) (v : Handler) :
    List (LightType × Handler) → List (LightType × Handler)
  | [] => [(k, v)]
  | (k1, v1) :: rest =>
    if k.val < k1.val then (k, v) :: (k1, v1) :: rest
    else if k1.val < k.val then (k1, v1) :: mapInsert k v rest
    else (k1, v1) :: rest

/-- The member `find` of `std::map`: the mapped value of key `k`, if any. -/
def mapFind (k : LightType) : List (LightType × Handler) → Option Handler
  | [] => none
  | (k1, v1) :: rest => if k1 = k then some v1 else mapFind k rest

/-- The static table `lights`, lines 242-247, built from its initializer list. -/
def lights : List (LightType × Handler) :=
  [ (LightType.BACKLIGHT, handleBacklight),
    (LightType.BATTERY, handleNotification),
    (LightType.NOTIFICATIONS, handleNotification),
    (LightType.ATTENTION, handleNotification) ].foldl (fun m e => mapInsert e.1 e.2 m) []

/-! ## The service entry points -/

/-- `Light::setLight(type, state)`, lines 251-266.  The `lock_guard` on
`globalLock` is held from the lookup's success to the return; in this sequential
embedding it has no effect on the result. -/
def setLight (type : LightType) (state : LightState) (w : World) : Status × World :=
  match mapFind type lights with
  | none => (Status.LIGHT_NOT_SUPPORTED, w)
  | some handler => (Status.SUCCESS, handler state w)

/-- `Light::getSupportedTypes(_hidl_cb)`, lines 268-276: the vector handed to the
callback. -/
def getSupportedTypes (w : World) : List LightType × World :=
  (lights.map Prod.fst, w)

/-- The device writes issued by one `setLight` call started in world `w`. -/
def callWrites (type : LightType) (state : LightState) (w : World) : List DeviceWrite :=
  (setLight type state w).2.writes.drop w.writes.length

/-! ## Formats named by the specification -/

/-- A non-empty run of whitespace characters. -/
def IsBlank (t : String) : Prop :=
  t.data ≠ [] ∧ ∀ ch ∈ t.data, ch.isWhitespace = true

/-- The brightness format of the specification: a decimal integer followed by a
newline. -/
def IsBrightnessText (s : String) : Prop :=
  ∃ v : Int, s = fmt_d v ++ "\n"

/-- The blink format of the specification: three whitespace-separated decimal
integers followed by a newline. -/
def IsBlinkText (s : String) : Prop :=
  ∃ a b c : Int, ∃ sep1 sep2 : String, IsBlank sep1 ∧ IsBlank sep2 ∧
    s = fmt_d a ++ sep1 ++ fmt_d b ++ sep2 ++ fmt_d c ++ "\n"

/-! ## Concrete worlds and requests -/

/-- A fresh world in which every control file opens and every write is accepted. -/
def okWorld : World :=
  { dev := fun _ _ => .written 1 0, already_warned := 0, log := [], writes := [] }

/-- A fresh world in which no control file can be opened (`ENOENT`). -/
def failWorld : World :=
  { dev := fun _ _ => .openFails 2, already_warned := 0, log := [], writes := [] }

/-- A fresh world in which the first three device writes are accepted and no control
file can be opened afterwards (`ENOENT`). -/
def lateFailWorld : World :=
  { dev := fun n _ => if n < 3 then .written 2 0 else .openFails 2,
    already_warned := 0, log := [], writes := [] }

/-- The request with the given color and flash parameters (user brightness mode). -/
def request (color : Nat) (mode : Flash) (on_ms off_ms : Int) : LightState :=
  { color := color, flashMode := mode, flashOnMs := on_ms, flashOffMs := off_ms,
    brightnessMode := ⟨0⟩ }

/-! ## Call sequences and observations -/

/-- A sequence of `setLight` calls, issued one after the other. -/
def runCalls : List (LightType × LightState) → World → World
  | [], w => w
  | (t, s) :: rest, w => runCalls rest (setLight t s w).2

/-- The log entry is the warning of `write_str`. -/
def isWriteStrWarning : LogEntry → Bool
  | .writeStrOpenFailed _ => true
  | .setLightLocked _ _ _ _ => false
  | .setFailed _ _ => false

/-- How many warnings of `write_str` a log holds. -/
def warningCount (log : List LogEntry) : Nat :=
  log.countP isWriteStrWarning

/-- The log entry reports that `p` could not be opened. -/
def reportsOpenFailure (p : String) : LogEntry → Bool
  | .writeStrOpenFailed q => q == p
  | .setLightLocked _ _ _ _ => false
  | .setFailed _ q => q == p

/-- How many entries of a log report that `p` could not be opened. -/
def openFailureCount (p : String) (log : List LogEntry) : Nat :=
  log.countP (reportsOpenFailure p)

/-- World `w1` follows world `w`: the log has grown by entries holding at most one
warning of `write_str`, and none when the warning flag was already set; the flag
is set exactly when the warning is logged, and it is never cleared. -/
def WarnsAtMostOnce (w w1 : World) : Prop :=
  ∃ l, w1.log = w.log ++ l ∧ warningCount l ≤ 1 ∧
    (w.already_warned ≠ 0 → warningCount l = 0) ∧
    (warningCount l = 1 → w1.already_warned ≠ 0) ∧
    (w.already_warned ≠ 0 → w1.already_warned ≠ 0) ∧
    (w.already_warned = 0 → w1.already_warned ≠ 0 → warningCount l = 1)

/-- The log entry reports a failed open (either primitive). -/
def isFailureReport : LogEntry → Bool
  | .writeStrOpenFailed _ => true
  | .setLightLocked _ _ _ _ => false
  | .setFailed _ _ => true

/-- The failure reports of a log, in order. -/
def failureReports (log : List LogEntry) : List LogEntry :=
  log.filter isFailureReport

/-- The value of the warning flag after a run of device writes, as the amended
log-once rule predicts it: the writes are numbered from `start`, the flag was
`flag` before; a successful open and a failed open of the backlight path leave the
flag alone, and a failed open of any other path sets it to 1 if it was 0. -/
def expectedFlag (dev : Nat → String → OpenOutcome) (flag : Int) (start : Nat) :
    List DeviceWrite → Int
  | [] => flag
  | d :: rest =>
    match dev start d.path with
    | .written _ _ => expectedFlag dev flag (start + 1) rest
    | .openFails _ =>
      if d.path = LCD_LED ++ BRIGHTNESS then expectedFlag dev flag (start + 1) rest
      else if flag = 0 then expectedFlag dev 1 (start + 1) rest
      else expectedFlag dev flag (start + 1) rest

/-- The failure reports of a run of device writes, as the amended log-once rule
predicts them: a successful open is not reported; every failed open of the
backlight path is reported (with the text that was to be written); a failed open
of any other path is reported only while the flag is 0, which the report ends. -/
def expectedReports (dev : Nat → String → OpenOutcome) (flag : Int) (start : Nat) :
    List DeviceWrite → List LogEntry
  | [] => []
  | d :: rest =>
    match dev start d.path with
    | .written _ _ => expectedReports dev flag (start + 1) rest
    | .openFails _ =>
      if d.path = LCD_LED ++ BRIGHTNESS then
        LogEntry.setFailed d.value d.path :: expectedReports dev flag (start + 1) rest
      else if flag = 0 then
        LogEntry.writeStrOpenFailed d.path :: expectedReports dev 1 (start + 1) rest
      else expectedReports dev flag (start + 1) rest

/-- World `w1` follows world `w` as the amended log-once rule predicts: the kernel
is the same, the trace has grown by some writes, and the failure reports and the
warning flag are those predicted for these writes. -/
def ReportsAsExpected (w w1 : World) : Prop :=
  w1.dev = w.dev ∧ ∃ ws, w1.writes = w.writes ++ ws ∧
    failureReports w1.log =
      failureReports w.log ++ expectedReports w.dev w.already_warned w.writes.length ws ∧
    w1.already_warned = expectedFlag w.dev w.already_warned w.writes.length ws

/-- The last text written to path `p` in a trace, if any. -/
def lastValue (p : String) (ws : List DeviceWrite) : Option String :=
  ((ws.filter (fun d => d.path == p)).getLast?).map DeviceWrite.value

/-- The write switches its output off: the text is `0` and a newline, or a blink
command whose enable field is `0`. -/
def IsOffWrite (d : DeviceWrite) : Prop :=
  d.value = "0\n" ∨
    ∃ on_ms off_ms : Int, d.value = fmt_d 0 ++ " " ++ fmt_d on_ms ++ " " ++ fmt_d off_ms ++ "\n"

/-- After the first `k` writes of the trace each of the four LED controls has
received a write that switches it off. -/
def AllZeroedAfter (k : Nat) (ws : List DeviceWrite) : Prop :=
  ∀ p ∈ [RED_LED_FILE, GREEN_LED_FILE, RED_BLINK_FILE, GREEN_BLINK_FILE],
    ∃ d ∈ ws.take k, d.path = p ∧ IsOffWrite d

/-- The write is an output of the requested mode: in blink mode a write to a blink
control, in steady mode a non-zero value written to a brightness control. -/
def IsModeOutput (blinkMode : Bool) (d : DeviceWrite) : Prop :=
  if blinkMode then d.path = RED_BLINK_FILE ∨ d.path = GREEN_BLINK_FILE
  else (d.path = RED_LED_FILE ∨ d.path = GREEN_LED_FILE) ∧ d.value ≠ "0\n"

/-- The specification's intermediate step: at some point of the trace all four LED
outputs have been switched off by the request, and no output of the requested mode
is written before that point. -/
def HasZeroedStep (blinkMode : Bool) (ws : List DeviceWrite) : Prop :=
  ∃ k, AllZeroedAfter k ws ∧ ∀ d ∈ ws.take k, ¬ IsModeOutput blinkMode d

/-! ## Auxiliary facts -/

theorem lights_eq : lights =
    [ (LightType.BACKLIGHT, handleBacklight), (LightType.BATTERY, handleNotification),
      (LightType.NOTIFICATIONS, handleNotification),
      (LightType.ATTENTION, handleNotification) ] := by
  rfl

theorem mapFind_backlight : mapFind LightType.BACKLIGHT lights = some handleBacklight := by
  rw [lights_eq]; rfl

theorem mapFind_led (t : LightType)
    (ht : t = LightType.BATTERY ∨ t = LightType.NOTIFICATIONS ∨ t = LightType.ATTENTION) :
    mapFind t lights = some handleNotification := by
  rw [lights_eq]
  rcases ht with h | h | h <;> subst h <;> rfl

theorem mapFind_other (t : LightType) (h0 : t ≠ LightType.BACKLIGHT)
    (h1 : t ≠ LightType.BATTERY) (h2 : t ≠ LightType.NOTIFICATIONS)
    (h3 : t ≠ LightType.ATTENTION) : mapFind t lights = none := by
  rw [lights_eq]
  simp [mapFind, Ne.symm h0, Ne.symm h1, Ne.symm h2, Ne.symm h3]

theorem snprintf_of_length_le (size : Nat) (s : String) (h : s.length ≤ size - 1) :
    snprintf size s = s := by
  unfold snprintf
  have : s.data.take (size - 1) = s.data := List.take_of_length_le h
  rw [this]

theorem fmt_d_ofNat (n : Nat) : fmt_d (n : Int) = Nat.repr n := by
  unfold fmt_d
  have : ¬ ((n : Int) < 0) := by omega
  simp [this]

theorem fmt_d_length_le (v : Int) (h : IsInt32 v) : (fmt_d v).length ≤ 11 := by
  obtain ⟨hlo, hhi⟩ := h
  unfold fmt_d
  split
  · have hb : v.natAbs < 10 ^ 10 := by omega
    have := Nat.repr_length v.natAbs 10 (by norm_num) hb
    rw [String.length_append]
    have h1 : "-".length = 1 := rfl
    omega
  · have hb : v.toNat < 10 ^ 10 := by omega
    have := Nat.repr_length v.toNat 10 (by norm_num) hb
    omega

theorem write_int_text (v : Int) (h : IsInt32 v) :
    snprintf 20 (fmt_d v ++ "\n") = fmt_d v ++ "\n" := by
  apply snprintf_of_length_le
  have := fmt_d_length_le v h
  rw [String.length_append]
  have h1 : "\n".length = 1 := rfl
  omega

theorem write_blink_text (e on_ms off_ms : Int) (he : IsInt32 e) (hon : IsInt32 on_ms)
    (hoff : IsInt32 off_ms) :
    snprintf 100 (fmt_d e ++ " " ++ fmt_d on_ms ++ " " ++ fmt_d off_ms ++ "\n")
      = fmt_d e ++ " " ++ fmt_d on_ms ++ " " ++ fmt_d off_ms ++ "\n" := by
  apply snprintf_of_length_le
  have h1 := fmt_d_length_le e he
  have h2 := fmt_d_length_le on_ms hon
  have h3 := fmt_d_length_le off_ms hoff
  simp only [String.length_append]
  have h4 : "\n".length = 1 := rfl
  have h5 : " ".length = 1 := rfl
  omega

theorem write_str_writes (path str : String) (w : World) :
    (write_str path str w).2.writes = w.writes ++ [⟨path, str⟩] := by
  unfold write_str
  split
  · rfl
  · dsimp only
    split <;> rfl

theorem write_int_writes (path : String) (v : Int) (w : World) :
    (write_int path v w).2.writes = w.writes ++ [⟨path, snprintf 20 (fmt_d v ++ "\n")⟩] := by
  unfold write_int; exact write_str_writes _ _ _

theorem write_blink_writes (path : String) (e on_ms off_ms : Int) (w : World) :
    (write_blink path e on_ms off_ms w).2.writes = w.writes ++
      [⟨path, snprintf 100 (fmt_d e ++ " " ++ fmt_d on_ms ++ " " ++ fmt_d off_ms ++ "\n")⟩] := by
  unfold write_blink; exact write_str_writes _ _ _

theorem set_str_writes (path value : String) (w : World) :
    (set_str path value w).writes = w.writes ++ [⟨path, value⟩] := by
  unfold set_str
  split <;> rfl

theorem low_byte (c : Nat) : c &&& 0xFF = c % 256 :=
  Nat.and_pow_two_sub_one_eq_mod c 8

theorem ledChannels_eq (c : Nat) :
    ledChannels c =
      if c % 256 ≠ 0 then (((c % 256 : Nat) : Int), ((c % 256 : Nat) : Int))
      else (((c / 65536 % 256 : Nat) : Int), ((c / 256 % 256 : Nat) : Int)) := by
  unfold ledChannels
  simp only [low_byte, Nat.shiftRight_eq_div_pow]

theorem handleBacklight_writes (s : LightState) (w : World) :
    (handleBacklight s w).writes =
      w.writes ++ [⟨LCD_LED ++ BRIGHTNESS, Nat.repr (s.color % 256)⟩] := by
  unfold handleBacklight set_int
  simp only [set_str_writes, low_byte, fmt_d_ofNat]

theorem set_light_locked_writes (s : LightState) (w : World) :
    (set_light_locked s w).2.writes = w.writes ++
      (if blinkOf s.flashMode ≠ 0 then
        [ ⟨RED_LED_FILE, snprintf 20 (fmt_d LED_LIGHT_OFF ++ "\n")⟩,
          ⟨GREEN_LED_FILE, snprintf 20 (fmt_d LED_LIGHT_OFF ++ "\n")⟩,
          ⟨RED_BLINK_FILE, snprintf 100
            (fmt_d (if (ledChannels s.color).1 ≠ 0 then 1 else 0) ++ " " ++ fmt_d s.flashOnMs
              ++ " " ++ fmt_d s.flashOffMs ++ "\n")⟩,
          ⟨GREEN_BLINK_FILE, snprintf 100
            (fmt_d (if (ledChannels s.color).2 ≠ 0 then 1 else 0) ++ " " ++ fmt_d s.flashOnMs
              ++ " " ++ fmt_d s.flashOffMs ++ "\n")⟩ ]
      else
        [ ⟨RED_BLINK_FILE, snprintf 20 (fmt_d (blinkOf s.flashMode) ++ "\n")⟩,
          ⟨GREEN_BLINK_FILE, snprintf 20 (fmt_d (blinkOf s.flashMode) ++ "\n")⟩,
          ⟨RED_LED_FILE, snprintf 20 (fmt_d LED_LIGHT_OFF ++ "\n")⟩,
          ⟨GREEN_LED_FILE, snprintf 20 (fmt_d LED_LIGHT_OFF ++ "\n")⟩,
          ⟨RED_LED_FILE, snprintf 20 (fmt_d (ledChannels s.color).1 ++ "\n")⟩,
          ⟨GREEN_LED_FILE, snprintf 20 (fmt_d (ledChannels s.color).2 ++ "\n")⟩ ]) := by
  unfold set_light_locked
  dsimp only
  split
  · simp only [write_blink_writes, write_int_writes, List.append_assoc, List.cons_append, List.nil_append]
  · simp only [write_int_writes, List.append_assoc, List.cons_append, List.nil_append]

theorem callWrites_backlight (s : LightState) (w : World) :
    callWrites LightType.BACKLIGHT s w =
      [⟨LCD_LED ++ BRIGHTNESS, Nat.repr (s.color % 256)⟩] := by
  unfold callWrites setLight
  rw [mapFind_backlight]
  dsimp only
  rw [handleBacklight_writes, List.drop_left]

theorem callWrites_led (t : LightType) (s : LightState) (w : World)
    (ht : t = LightType.BATTERY ∨ t = LightType.NOTIFICATIONS ∨ t = LightType.ATTENTION) :
    (set_light_locked s w).2.writes = w.writes ++ callWrites t s w := by
  unfold callWrites setLight
  rw [mapFind_led t ht]
  dsimp only [handleNotification]
  rw [set_light_locked_writes, List.drop_left]

theorem setLight_status_supported (t : LightType) (s : LightState) (w : World)
    (ht : t = LightType.BACKLIGHT ∨ t = LightType.BATTERY ∨ t = LightType.NOTIFICATIONS ∨
      t = LightType.ATTENTION) :
    (setLight t s w).1 = Status.SUCCESS := by
  unfold setLight
  rcases ht with h | h
  · subst h; rw [mapFind_backlight]
  · rw [mapFind_led t h]

theorem setLight_status_unsupported (t : LightType) (s : LightState) (w : World)
    (h0 : t ≠ LightType.BACKLIGHT) (h1 : t ≠ LightType.BATTERY)
    (h2 : t ≠ LightType.NOTIFICATIONS) (h3 : t ≠ LightType.ATTENTION) :
    (setLight t s w).1 = Status.LIGHT_NOT_SUPPORTED := by
  unfold setLight
  rw [mapFind_other t h0 h1 h2 h3]

theorem setLight_writes_backlight (s : LightState) (w : World) :
    (setLight LightType.BACKLIGHT s w).2.writes =
      w.writes ++ callWrites LightType.BACKLIGHT s w := by
  rw [callWrites_backlight]
  unfold setLight
  rw [mapFind_backlight]
  exact handleBacklight_writes s w

theorem setLight_writes_led (t : LightType) (s : LightState) (w : World)
    (ht : t = LightType.BATTERY ∨ t = LightType.NOTIFICATIONS ∨ t = LightType.ATTENTION) :
    (setLight t s w).2.writes = w.writes ++ callWrites t s w := by
  rw [← callWrites_led t s w ht]
  unfold setLight
  rw [mapFind_led t ht]
  rfl

theorem ledChannels_low24 (c1 c2 : Nat) (h : c1 % 16777216 = c2 % 16777216) :
    ledChannels c1 = ledChannels c2 := by
  have e1 : c1 % 256 = c2 % 256 := by omega
  have e2 : c1 / 65536 % 256 = c2 / 65536 % 256 := by omega
  have e3 : c1 / 256 % 256 = c2 / 256 % 256 := by omega
  rw [ledChannels_eq, ledChannels_eq, e1, e2, e3]

theorem write_str_log_getElem (p str : String) (w : World) (i : Nat) (e : LogEntry)
    (h : w.log[i]? = some e) : (write_str p str w).2.log[i]? = some e := by
  unfold write_str
  split
  · exact h
  · dsimp only
    split
    · have hi : i < w.log.length := (List.getElem?_eq_some.mp h).1
      show (w.log ++ [LogEntry.writeStrOpenFailed p])[i]? = some e
      rw [List.getElem?_append_left hi]; exact h
    · exact h

theorem write_int_log_getElem (p : String) (v : Int) (w : World) (i : Nat) (e : LogEntry)
    (h : w.log[i]? = some e) : (write_int p v w).2.log[i]? = some e :=
  write_str_log_getElem _ _ w i e h

theorem write_blink_log_getElem (p : String) (v a b : Int) (w : World) (i : Nat)
    (e : LogEntry) (h : w.log[i]? = some e) : (write_blink p v a b w).2.log[i]? = some e :=
  write_str_log_getElem _ _ w i e h

theorem set_light_locked_log_entry (s : LightState) (w : World) :
    (set_light_locked s w).2.log[w.log.length]? =
      some (LogEntry.setLightLocked s.color (ledChannels s.color).1 (ledChannels s.color).2
        (blinkOf s.flashMode)) := by
  unfold set_light_locked
  dsimp only
  split
  · apply write_blink_log_getElem
    apply write_blink_log_getElem
    apply write_int_log_getElem
    apply write_int_log_getElem
    simp
  · iterate 6 apply write_int_log_getElem
    simp

set_option maxRecDepth 100000 in
theorem repr_byte_no_newline : ∀ n < 256, (Nat.repr n).data.getLast? ≠ some '\n' := by
  decide

theorem brightnessText_last (s : String) (h : IsBrightnessText s) :
    s.data.getLast? = some '\n' := by
  obtain ⟨v, hv⟩ := h
  rw [hv, String.data_append]
  exact List.getLast?_concat _

theorem isBlank_length (t : String) (h : IsBlank t) : 1 ≤ t.length := by
  have : t.data ≠ [] := h.1
  exact List.length_pos.mpr this

theorem blinkText_length (s : String) (h : IsBlinkText s) : 3 ≤ s.length := by
  obtain ⟨a, b, c, sep1, sep2, h1, h2, hs⟩ := h
  have l1 := isBlank_length sep1 h1
  have l2 := isBlank_length sep2 h2
  rw [hs]
  simp only [String.length_append]
  have : "\n".length = 1 := rfl
  omega

theorem isBlank_space : IsBlank " " := by
  unfold IsBlank; decide

theorem zero_text_brightness : IsBrightnessText (snprintf 20 (fmt_d LED_LIGHT_OFF ++ "\n")) :=
  ⟨0, by decide⟩

theorem callWrites_led_eq (t : LightType) (s : LightState) (w : World)
    (ht : t = LightType.BATTERY ∨ t = LightType.NOTIFICATIONS ∨ t = LightType.ATTENTION) :
    callWrites t s w =
      (if blinkOf s.flashMode ≠ 0 then
        [ ⟨RED_LED_FILE, snprintf 20 (fmt_d LED_LIGHT_OFF ++ "\n")⟩,
          ⟨GREEN_LED_FILE, snprintf 20 (fmt_d LED_LIGHT_OFF ++ "\n")⟩,
          ⟨RED_BLINK_FILE, snprintf 100
            (fmt_d (if (ledChannels s.color).1 ≠ 0 then 1 else 0) ++ " " ++ fmt_d s.flashOnMs
              ++ " " ++ fmt_d s.flashOffMs ++ "\n")⟩,
          ⟨GREEN_BLINK_FILE, snprintf 100
            (fmt_d (if (ledChannels s.color).2 ≠ 0 then 1 else 0) ++ " " ++ fmt_d s.flashOnMs
              ++ " " ++ fmt_d s.flashOffMs ++ "\n")⟩ ]
      else
        [ ⟨RED_BLINK_FILE, snprintf 20 (fmt_d (blinkOf s.flashMode) ++ "\n")⟩,
          ⟨GREEN_BLINK_FILE, snprintf 20 (fmt_d (blinkOf s.flashMode) ++ "\n")⟩,
          ⟨RED_LED_FILE, snprintf 20 (fmt_d LED_LIGHT_OFF ++ "\n")⟩,
          ⟨GREEN_LED_FILE, snprintf 20 (fmt_d LED_LIGHT_OFF ++ "\n")⟩,
          ⟨RED_LED_FILE, snprintf 20 (fmt_d (ledChannels s.color).1 ++ "\n")⟩,
          ⟨GREEN_LED_FILE, snprintf 20 (fmt_d (ledChannels s.color).2 ++ "\n")⟩ ]) := by
  have h := callWrites_led t s w ht
  rw [set_light_locked_writes] at h
  exact (List.append_cancel_left h).symm

theorem blinkOf_steady (m : Flash) (h1 : m ≠ Flash.TIMED) (h2 : m ≠ Flash.HARDWARE) :
    blinkOf m = 0 := by
  unfold blinkOf; simp [h1, h2]

theorem blinkOf_blink (m : Flash) (h : m = Flash.TIMED ∨ m = Flash.HARDWARE) :
    blinkOf m = 1 := by
  unfold blinkOf
  rcases h with h | h <;> subst h <;> decide

theorem ledChannels_fst_byte (c : Nat) :
    ∃ n : Nat, n < 256 ∧ (ledChannels c).1 = (n : Int) := by
  rw [ledChannels_eq]
  split
  · exact ⟨c % 256, Nat.mod_lt _ (by norm_num), rfl⟩
  · exact ⟨c / 65536 % 256, Nat.mod_lt _ (by norm_num), rfl⟩

theorem ledChannels_snd_byte (c : Nat) :
    ∃ n : Nat, n < 256 ∧ (ledChannels c).2 = (n : Int) := by
  rw [ledChannels_eq]
  split
  · exact ⟨c % 256, Nat.mod_lt _ (by norm_num), rfl⟩
  · exact ⟨c / 256 % 256, Nat.mod_lt _ (by norm_num), rfl⟩

theorem isInt32_of_byte (n : Nat) (h : n < 256) : IsInt32 (n : Int) := by
  unfold IsInt32; omega

theorem zero_text : snprintf 20 (fmt_d 0 ++ "\n") = "0\n" := by decide

theorem steady_led_writes (t : LightType) (s : LightState) (w : World)
    (ht : t = LightType.BATTERY ∨ t = LightType.NOTIFICATIONS ∨ t = LightType.ATTENTION)
    (h1 : s.flashMode ≠ Flash.TIMED) (h2 : s.flashMode ≠ Flash.HARDWARE) :
    callWrites t s w =
      [ ⟨RED_BLINK_FILE, "0\n"⟩, ⟨GREEN_BLINK_FILE, "0\n"⟩,
        ⟨RED_LED_FILE, "0\n"⟩, ⟨GREEN_LED_FILE, "0\n"⟩,
        ⟨RED_LED_FILE, fmt_d (ledChannels s.color).1 ++ "\n"⟩,
        ⟨GREEN_LED_FILE, fmt_d (ledChannels s.color).2 ++ "\n"⟩ ] := by
  rw [callWrites_led_eq t s w ht, blinkOf_steady _ h1 h2]
  obtain ⟨r, hr, hre⟩ := ledChannels_fst_byte s.color
  obtain ⟨g, hg, hge⟩ := ledChannels_snd_byte s.color
  rw [hre, hge, write_int_text _ (isInt32_of_byte r hr), write_int_text _ (isInt32_of_byte g hg)]
  simp only [LED_LIGHT_OFF, zero_text]
  rfl

theorem blink_led_writes (t : LightType) (s : LightState) (w : World)
    (ht : t = LightType.BATTERY ∨ t = LightType.NOTIFICATIONS ∨ t = LightType.ATTENTION)
    (hm : s.flashMode = Flash.TIMED ∨ s.flashMode = Flash.HARDWARE)
    (hon : IsInt32 s.flashOnMs) (hoff : IsInt32 s.flashOffMs) :
    callWrites t s w =
      [ ⟨RED_LED_FILE, "0\n"⟩, ⟨GREEN_LED_FILE, "0\n"⟩,
        ⟨RED_BLINK_FILE, fmt_d (if (ledChannels s.color).1 ≠ 0 then 1 else 0) ++ " " ++
          fmt_d s.flashOnMs ++ " " ++ fmt_d s.flashOffMs ++ "\n"⟩,
        ⟨GREEN_BLINK_FILE, fmt_d (if (ledChannels s.color).2 ≠ 0 then 1 else 0) ++ " " ++
          fmt_d s.flashOnMs ++ " " ++ fmt_d s.flashOffMs ++ "\n"⟩ ] := by
  rw [callWrites_led_eq t s w ht, blinkOf_blink _ hm]
  have he1 : IsInt32 (if (ledChannels s.color).1 ≠ 0 then 1 else 0) := by
    split <;> decide
  have he2 : IsInt32 (if (ledChannels s.color).2 ≠ 0 then 1 else 0) := by
    split <;> decide
  rw [write_blink_text _ _ _ he1 hon hoff, write_blink_text _ _ _ he2 hon hoff]
  simp only [LED_LIGHT_OFF, zero_text]
  rfl

theorem setLight_status_indep (t : LightType) (s : LightState) (w w1 : World) :
    (setLight t s w).1 = (setLight t s w1).1 := by
  unfold setLight
  cases mapFind t lights <;> rfl

theorem callWrites_unsupported (t : LightType) (s : LightState) (w : World)
    (h : mapFind t lights = none) : callWrites t s w = [] := by
  unfold callWrites setLight
  rw [h]
  simp

theorem supported_or_not (t : LightType) :
    t = LightType.BACKLIGHT ∨
      (t = LightType.BATTERY ∨ t = LightType.NOTIFICATIONS ∨ t = LightType.ATTENTION) ∨
      mapFind t lights = none := by
  by_cases h0 : t = LightType.BACKLIGHT
  · exact Or.inl h0
  by_cases h1 : t = LightType.BATTERY
  · exact Or.inr (Or.inl (Or.inl h1))
  by_cases h2 : t = LightType.NOTIFICATIONS
  · exact Or.inr (Or.inl (Or.inr (Or.inl h2)))
  by_cases h3 : t = LightType.ATTENTION
  · exact Or.inr (Or.inl (Or.inr (Or.inr h3)))
  exact Or.inr (Or.inr (mapFind_other t h0 h1 h2 h3))

theorem callWrites_world_indep (t : LightType) (s : LightState) (w w1 : World) :
    callWrites t s w = callWrites t s w1 := by
  rcases supported_or_not t with h | h | h
  · subst h; rw [callWrites_backlight, callWrites_backlight]
  · rw [callWrites_led_eq t s w h, callWrites_led_eq t s w1 h]
  · rw [callWrites_unsupported t s w h, callWrites_unsupported t s w1 h]

theorem setLight_writes_eq (t : LightType) (s : LightState) (w : World) :
    (setLight t s w).2.writes = w.writes ++ callWrites t s w := by
  rcases supported_or_not t with h | h | h
  · subst h; exact setLight_writes_backlight s w
  · exact setLight_writes_led t s w h
  · rw [callWrites_unsupported t s w h]
    unfold setLight
    rw [h]
    simp

theorem setLight_led_eq (t : LightType) (s : LightState) (w : World)
    (ht : t = LightType.BATTERY ∨ t = LightType.NOTIFICATIONS ∨ t = LightType.ATTENTION) :
    setLight t s w = (Status.SUCCESS, handleNotification s w) := by
  unfold setLight
  rw [mapFind_led t ht]

theorem led_paths_of_mem (t : LightType) (s : LightState) (w : World)
    (ht : t = LightType.BATTERY ∨ t = LightType.NOTIFICATIONS ∨ t = LightType.ATTENTION)
    (d : DeviceWrite) (hd : d ∈ callWrites t s w) :
    d.path = RED_LED_FILE ∨ d.path = GREEN_LED_FILE ∨ d.path = RED_BLINK_FILE ∨
      d.path = GREEN_BLINK_FILE := by
  rw [callWrites_led_eq t s w ht] at hd
  split at hd
  · simp only [List.mem_cons, List.mem_singleton, List.not_mem_nil, or_false] at hd
    rcases hd with h | h | h | h <;> subst h <;> simp
  · simp only [List.mem_cons, List.mem_singleton, List.not_mem_nil, or_false] at hd
    rcases hd with h | h | h | h | h | h <;> subst h <;> simp

theorem led_writes_all_paths (t : LightType) (s : LightState) (w : World)
    (ht : t = LightType.BATTERY ∨ t = LightType.NOTIFICATIONS ∨ t = LightType.ATTENTION)
    (p : String)
    (hp : p = RED_LED_FILE ∨ p = GREEN_LED_FILE ∨ p = RED_BLINK_FILE ∨ p = GREEN_BLINK_FILE) :
    ∃ d ∈ callWrites t s w, d.path = p := by
  rw [callWrites_led_eq t s w ht]
  split
  · rcases hp with h | h | h | h <;> subst h
    · exact ⟨_, List.mem_cons_self _ _, rfl⟩
    · exact ⟨_, List.mem_cons_of_mem _ (List.mem_cons_self _ _), rfl⟩
    · exact ⟨_, List.mem_cons_of_mem _ (List.mem_cons_of_mem _ (List.mem_cons_self _ _)), rfl⟩
    · exact ⟨_, List.mem_cons_of_mem _ (List.mem_cons_of_mem _
        (List.mem_cons_of_mem _ (List.mem_cons_self _ _))), rfl⟩
  · rcases hp with h | h | h | h <;> subst h
    · exact ⟨_, List.mem_cons_of_mem _ (List.mem_cons_of_mem _ (List.mem_cons_self _ _)), rfl⟩
    · exact ⟨_, List.mem_cons_of_mem _ (List.mem_cons_of_mem _
        (List.mem_cons_of_mem _ (List.mem_cons_self _ _))), rfl⟩
    · exact ⟨_, List.mem_cons_self _ _, rfl⟩
    · exact ⟨_, List.mem_cons_of_mem _ (List.mem_cons_self _ _), rfl⟩

theorem mapInsert_key_mem (k : LightType) (v : Handler) (m : List (LightType × Handler))
    (x : LightType) (hx : x ∈ (mapInsert k v m).map Prod.fst) :
    x = k ∨ x ∈ m.map Prod.fst := by
  induction m with
  | nil =>
    simp only [mapInsert, List.map_cons, List.map_nil, List.mem_singleton] at hx
    exact Or.inl hx
  | cons e rest ih =>
    obtain ⟨k1, v1⟩ := e
    unfold mapInsert at hx
    split at hx
    · simp only [List.map_cons, List.mem_cons] at hx ⊢
      exact hx
    · split at hx
      · simp only [List.map_cons, List.mem_cons] at hx ⊢
        rcases hx with h | h
        · exact Or.inr (Or.inl h)
        · rcases ih h with h1 | h1
          · exact Or.inl h1
          · exact Or.inr (Or.inr h1)
      · exact Or.inr hx

theorem mapInsert_ascending (k : LightType) (v : Handler) (m : List (LightType × Handler))
    (hm : (m.map Prod.fst).Pairwise (fun a b => a.val < b.val)) :
    ((mapInsert k v m).map Prod.fst).Pairwise (fun a b => a.val < b.val) := by
  induction m with
  | nil => simp [mapInsert]
  | cons e rest ih =>
    obtain ⟨k1, v1⟩ := e
    simp only [List.map_cons, List.pairwise_cons] at hm
    unfold mapInsert
    split
    · rename_i hlt
      simp only [List.map_cons, List.pairwise_cons, List.mem_cons]
      refine ⟨?_, hm.1, hm.2⟩
      intro a ha
      rcases ha with h | h
      · rw [h]; exact hlt
      · exact lt_trans hlt (hm.1 a h)
    · split
      · rename_i hgt
        simp only [List.map_cons, List.pairwise_cons]
        refine ⟨?_, ih hm.2⟩
        intro a ha
        rcases mapInsert_key_mem k v rest a ha with h | h
        · rw [h]; exact hgt
        · exact hm.1 a h
      · simp only [List.map_cons, List.pairwise_cons]
        exact hm

theorem foldl_mapInsert_ascending (l : List (LightType × Handler))
    (m : List (LightType × Handler))
    (hm : (m.map Prod.fst).Pairwise (fun a b => a.val < b.val)) :
    ((l.foldl (fun m e => mapInsert e.1 e.2 m) m).map Prod.fst).Pairwise
      (fun a b => a.val < b.val) := by
  induction l generalizing m with
  | nil => exact hm
  | cons e rest ih => exact ih _ (mapInsert_ascending e.1 e.2 m hm)

theorem getSupportedTypes_eq (w : World) :
    (getSupportedTypes w).1 =
      [LightType.BACKLIGHT, LightType.BATTERY, LightType.NOTIFICATIONS,
        LightType.ATTENTION] := by
  unfold getSupportedTypes; rw [lights_eq]; rfl

theorem digitChar_ascii : ∀ m < 10, (Nat.digitChar m).toNat < 128 := by
  decide

theorem toDigitsCore_ascii (fuel : Nat) : ∀ (n : Nat) (ds : List Char),
    (∀ c ∈ ds, c.toNat < 128) → ∀ c ∈ Nat.toDigitsCore 10 fuel n ds, c.toNat < 128 := by
  induction fuel with
  | zero => intro n ds h; simpa [Nat.toDigitsCore] using h
  | succ f ih =>
    intro n ds h
    have hcons : ∀ c ∈ Nat.digitChar (n % 10) :: ds, c.toNat < 128 := by
      intro c hc
      rcases List.mem_cons.mp hc with h1 | h1
      · rw [h1]; exact digitChar_ascii _ (Nat.mod_lt _ (by norm_num))
      · exact h c h1
    simp only [Nat.toDigitsCore]
    split
    · exact hcons
    · exact ih _ _ hcons

theorem repr_ascii (n : Nat) : ∀ c ∈ (Nat.repr n).data, c.toNat < 128 := by
  unfold Nat.repr Nat.toDigits
  exact toDigitsCore_ascii _ _ _ (by simp)

theorem fmt_d_ascii (v : Int) : ∀ c ∈ (fmt_d v).data, c.toNat < 128 := by
  unfold fmt_d
  split
  · intro c hc
    rw [String.data_append, List.mem_append] at hc
    rcases hc with h | h
    · have : c = '-' := by simpa using h
      rw [this]; decide
    · exact repr_ascii _ c h
  · exact repr_ascii _

theorem append_ascii (a b : String) (ha : ∀ c ∈ a.data, c.toNat < 128)
    (hb : ∀ c ∈ b.data, c.toNat < 128) : ∀ c ∈ (a ++ b).data, c.toNat < 128 := by
  intro c hc
  rw [String.data_append, List.mem_append] at hc
  rcases hc with h | h
  · exact ha c h
  · exact hb c h

theorem newline_ascii : ∀ c ∈ "\n".data, c.toNat < 128 := by decide

theorem space_ascii : ∀ c ∈ " ".data, c.toNat < 128 := by decide

theorem lastValue_steady_red (a b : String) :
    lastValue RED_LED_FILE
      [ ⟨RED_BLINK_FILE, "0\n"⟩, ⟨GREEN_BLINK_FILE, "0\n"⟩, ⟨RED_LED_FILE, "0\n"⟩,
        ⟨GREEN_LED_FILE, "0\n"⟩, ⟨RED_LED_FILE, a⟩, ⟨GREEN_LED_FILE, b⟩ ] = some a := by
  rfl

theorem lastValue_steady_green (a b : String) :
    lastValue GREEN_LED_FILE
      [ ⟨RED_BLINK_FILE, "0\n"⟩, ⟨GREEN_BLINK_FILE, "0\n"⟩, ⟨RED_LED_FILE, "0\n"⟩,
        ⟨GREEN_LED_FILE, "0\n"⟩, ⟨RED_LED_FILE, a⟩, ⟨GREEN_LED_FILE, b⟩ ] = some b := by
  rfl

theorem lastValue_blink_red (x y : String) :
    lastValue RED_BLINK_FILE
      [ ⟨RED_LED_FILE, "0\n"⟩, ⟨GREEN_LED_FILE, "0\n"⟩, ⟨RED_BLINK_FILE, x⟩,
        ⟨GREEN_BLINK_FILE, y⟩ ] = some x := by
  rfl

theorem lastValue_blink_green (x y : String) :
    lastValue GREEN_BLINK_FILE
      [ ⟨RED_LED_FILE, "0\n"⟩, ⟨GREEN_LED_FILE, "0\n"⟩, ⟨RED_BLINK_FILE, x⟩,
        ⟨GREEN_BLINK_FILE, y⟩ ] = some y := by
  rfl

set_option maxRecDepth 100000 in
theorem byte_text_zero : ∀ n < 256, (Nat.repr n ++ "\n" = "0\n" ↔ n = 0) := by
  decide

theorem channel_text_zero (v : Int) (h : ∃ n : Nat, n < 256 ∧ v = (n : Int)) :
    fmt_d v ++ "\n" = "0\n" ↔ v = 0 := by
  obtain ⟨n, hn, hv⟩ := h
  rw [hv, fmt_d_ofNat, byte_text_zero n hn]
  omega

theorem enable_text_zero (v : Int) (rest : String) :
    fmt_d (if v ≠ 0 then 1 else 0) ++ rest = fmt_d 0 ++ rest ↔ v = 0 := by
  constructor
  · intro h
    by_contra hv
    rw [if_pos hv] at h
    have h1 : fmt_d 1 = "1" := by decide
    have h0 : fmt_d 0 = "0" := by decide
    rw [h1, h0] at h
    have hd := congrArg (fun t : String => t.data.head?) h
    simp only [String.data_append] at hd
    exact absurd hd (by simp)
  · intro hv
    rw [hv]
    rfl

theorem ledChannels_zero_iff (c : Nat) :
    ((ledChannels c).1 = 0 ∧ (ledChannels c).2 = 0) ↔ c % 16777216 = 0 := by
  rw [ledChannels_eq]
  split
  · dsimp only; omega
  · dsimp only; omega

theorem ledChannels_blue (c : Nat) (h : c % 256 ≠ 0) :
    ledChannels c = (((c % 256 : Nat) : Int), ((c % 256 : Nat) : Int)) := by
  rw [ledChannels_eq, if_pos h]

theorem low24 (c : Nat) : c &&& 0x00FFFFFF = c % 16777216 :=
  Nat.and_pow_two_sub_one_eq_mod c 24

theorem off_command_head (on_ms off_ms : Int) :
    (fmt_d 0 ++ " " ++ fmt_d on_ms ++ " " ++ fmt_d off_ms ++ "\n").data.head? = some '0' := by
  have h0 : fmt_d 0 = "0" := by decide
  rw [h0]
  simp only [String.data_append]
  rfl

theorem zero_writes_allZeroed :
    AllZeroedAfter 4
      [ ⟨RED_BLINK_FILE, "0\n"⟩, ⟨GREEN_BLINK_FILE, "0\n"⟩, ⟨RED_LED_FILE, "0\n"⟩,
        ⟨GREEN_LED_FILE, "0\n"⟩ ] := by
  intro p hp
  simp only [List.mem_cons, List.mem_singleton, List.not_mem_nil, or_false] at hp
  rcases hp with h | h | h | h <;> subst h
  · exact ⟨⟨RED_LED_FILE, "0\n"⟩, by simp, rfl, Or.inl rfl⟩
  · exact ⟨⟨GREEN_LED_FILE, "0\n"⟩, by simp, rfl, Or.inl rfl⟩
  · exact ⟨⟨RED_BLINK_FILE, "0\n"⟩, by simp, rfl, Or.inl rfl⟩
  · exact ⟨⟨GREEN_BLINK_FILE, "0\n"⟩, by simp, rfl, Or.inl rfl⟩

theorem warningCount_append (l1 l2 : List LogEntry) :
    warningCount (l1 ++ l2) = warningCount l1 + warningCount l2 := by
  unfold warningCount
  exact List.countP_append _ l1 l2

theorem warnsAtMostOnce_refl (w : World) : WarnsAtMostOnce w w := by
  refine ⟨[], by simp, by simp [warningCount], fun _ => rfl, ?_, fun h => h, ?_⟩
  · intro h; simp [warningCount] at h
  · intro h0 h1; exact absurd h0 h1

theorem warnsAtMostOnce_trans (w w1 w2 : World) (h1 : WarnsAtMostOnce w w1)
    (h2 : WarnsAtMostOnce w1 w2) : WarnsAtMostOnce w w2 := by
  obtain ⟨l1, e1, a1, b1, c1, d1, f1⟩ := h1
  obtain ⟨l2, e2, a2, b2, c2, d2, f2⟩ := h2
  refine ⟨l1 ++ l2, by rw [e2, e1, List.append_assoc], ?_, ?_, ?_, ?_, ?_⟩
  · rw [warningCount_append]
    by_cases hw : w1.already_warned = 0
    · have : warningCount l1 = 0 := by
        by_contra hne
        have h1' : warningCount l1 = 1 := by omega
        exact c1 h1' hw
      omega
    · have := b2 hw
      omega
  · intro hw
    rw [warningCount_append, b1 hw, b2 (d1 hw)]
  · intro hc
    rw [warningCount_append] at hc
    by_cases hw : w1.already_warned = 0
    · have h0 : warningCount l1 = 0 := by
        by_contra hne
        have h1' : warningCount l1 = 1 := by omega
        exact c1 h1' hw
      exact c2 (by omega)
    · exact d2 hw
  · intro hw
    exact d2 (d1 hw)
  · intro hw0 hw2
    rw [warningCount_append]
    by_cases hw : w1.already_warned = 0
    · have h0 : warningCount l1 = 0 := by
        by_contra hne
        have h1' : warningCount l1 = 1 := by omega
        exact c1 h1' hw
      have := f2 hw hw2
      omega
    · have := f1 hw0 hw
      have := b2 hw
      omega

theorem write_str_log (p str : String) (w : World) :
    (write_str p str w).2.log =
      w.log ++ (match w.dev w.writes.length p with
        | .written _ _ => []
        | .openFails _ => if w.already_warned = 0 then [LogEntry.writeStrOpenFailed p] else [])
      ∧
    (write_str p str w).2.already_warned =
      (match w.dev w.writes.length p with
        | .written _ _ => w.already_warned
        | .openFails _ => if w.already_warned = 0 then 1 else w.already_warned) := by
  unfold write_str
  cases w.dev w.writes.length p with
  | written amt errno => simp
  | openFails errno =>
    dsimp only
    split <;> simp

theorem write_str_warns (p str : String) (w : World) :
    WarnsAtMostOnce w (write_str p str w).2 := by
  obtain ⟨hl, ha⟩ := write_str_log p str w
  cases hdev : w.dev w.writes.length p with
  | written amt errno =>
    rw [hdev] at hl ha
    dsimp only at hl ha
    refine ⟨[], hl, by simp [warningCount], fun _ => rfl, ?_, ?_, ?_⟩
    · intro h; simp [warningCount] at h
    · intro h; rw [ha]; exact h
    · intro h0 h1; rw [ha] at h1; exact absurd h0 h1
  | openFails errno =>
    rw [hdev] at hl ha
    dsimp only at hl ha
    by_cases hw : w.already_warned = 0
    · rw [if_pos hw] at hl ha
      refine ⟨_, hl, by simp [warningCount, isWriteStrWarning], fun h => absurd hw h, ?_, ?_, ?_⟩
      · intro _; rw [ha]; decide
      · intro h; exact absurd hw h
      · intro _ _; simp [warningCount, isWriteStrWarning]
    · rw [if_neg hw] at hl ha
      refine ⟨[], hl, by simp [warningCount], fun _ => rfl, ?_, ?_, ?_⟩
      · intro h; simp [warningCount] at h
      · intro h; rw [ha]; exact h
      · intro h0; exact absurd h0 hw

theorem write_int_warns (p : String) (v : Int) (w : World) :
    WarnsAtMostOnce w (write_int p v w).2 :=
  write_str_warns _ _ w

theorem write_blink_warns (p : String) (v a b : Int) (w : World) :
    WarnsAtMostOnce w (write_blink p v a b w).2 :=
  write_str_warns _ _ w

theorem log_append_warns (w : World) (e : LogEntry) (he : isWriteStrWarning e = false) :
    WarnsAtMostOnce w { w with log := w.log ++ [e] } := by
  have hc : warningCount [e] = 0 := by simp [warningCount, he]
  refine ⟨[e], rfl, by omega, fun _ => hc, ?_, fun h => h, ?_⟩
  · intro h; omega
  · intro h0 h1; exact absurd h0 h1

theorem set_str_warns (p v : String) (w : World) : WarnsAtMostOnce w (set_str p v w) := by
  unfold set_str
  split
  · exact ⟨[LogEntry.setFailed v p], rfl, by simp [warningCount, isWriteStrWarning],
      fun _ => by simp [warningCount, isWriteStrWarning],
      fun h => by simp [warningCount, isWriteStrWarning] at h, fun h => h,
      fun h0 h1 => absurd h0 h1⟩
  · exact ⟨[], by simp, by simp [warningCount], fun _ => rfl,
      fun h => by simp [warningCount] at h, fun h => h, fun h0 h1 => absurd h0 h1⟩

theorem set_light_locked_warns (s : LightState) (w : World) :
    WarnsAtMostOnce w (set_light_locked s w).2 := by
  unfold set_light_locked
  dsimp only
  split
  · refine warnsAtMostOnce_trans _ _ _ ?_ (write_blink_warns _ _ _ _ _)
    refine warnsAtMostOnce_trans _ _ _ ?_ (write_blink_warns _ _ _ _ _)
    refine warnsAtMostOnce_trans _ _ _ ?_ (write_int_warns _ _ _)
    refine warnsAtMostOnce_trans _ _ _ ?_ (write_int_warns _ _ _)
    exact log_append_warns w _ rfl
  · refine warnsAtMostOnce_trans _ _ _ ?_ (write_int_warns _ _ _)
    refine warnsAtMostOnce_trans _ _ _ ?_ (write_int_warns _ _ _)
    refine warnsAtMostOnce_trans _ _ _ ?_ (write_int_warns _ _ _)
    refine warnsAtMostOnce_trans _ _ _ ?_ (write_int_warns _ _ _)
    refine warnsAtMostOnce_trans _ _ _ ?_ (write_int_warns _ _ _)
    refine warnsAtMostOnce_trans _ _ _ ?_ (write_int_warns _ _ _)
    exact log_append_warns w _ rfl

theorem setLight_warns (t : LightType) (s : LightState) (w : World) :
    WarnsAtMostOnce w (setLight t s w).2 := by
  rcases supported_or_not t with h | h | h
  · subst h
    unfold setLight
    rw [mapFind_backlight]
    exact set_str_warns _ _ w
  · rw [setLight_led_eq t s w h]
    exact set_light_locked_warns s w
  · unfold setLight
    rw [h]
    exact warnsAtMostOnce_refl w

theorem runCalls_warns (calls : List (LightType × LightState)) (w : World) :
    WarnsAtMostOnce w (runCalls calls w) := by
  induction calls generalizing w with
  | nil => exact warnsAtMostOnce_refl w
  | cons c rest ih =>
    obtain ⟨t, s⟩ := c
    exact warnsAtMostOnce_trans _ _ _ (setLight_warns t s w) (ih _)

theorem runCalls_writes (calls : List (LightType × LightState)) (w : World) :
    (runCalls calls w).writes =
      w.writes ++ calls.flatMap (fun c => callWrites c.1 c.2 okWorld) := by
  induction calls generalizing w with
  | nil => simp [runCalls]
  | cons c rest ih =>
    obtain ⟨t, s⟩ := c
    rw [runCalls, ih, setLight_writes_eq, List.flatMap_cons, List.append_assoc,
      callWrites_world_indep t s w okWorld]

theorem setLight_backlight_log (s : LightState) (w : World) (e : Int)
    (h : w.dev w.writes.length (LCD_LED ++ BRIGHTNESS) = OpenOutcome.openFails e) :
    (setLight LightType.BACKLIGHT s w).2.log =
      w.log ++ [LogEntry.setFailed (Nat.repr (s.color % 256)) (LCD_LED ++ BRIGHTNESS)] := by
  unfold setLight
  rw [mapFind_backlight]
  dsimp only
  unfold handleBacklight set_int set_str
  dsimp only
  rw [h, low_byte, fmt_d_ofNat]

theorem expectedFlag_append (dev : Nat → String → OpenOutcome) (a b : List DeviceWrite) :
    ∀ (flag : Int) (n : Nat), expectedFlag dev flag n (a ++ b) =
      expectedFlag dev (expectedFlag dev flag n a) (n + a.length) b := by
  induction a with
  | nil => intro flag n; rfl
  | cons d rest ih =>
    intro flag n
    have hn : n + (d :: rest).length = n + 1 + rest.length := by
      simp only [List.length_cons]; omega
    rw [hn]
    simp only [List.cons_append, expectedFlag]
    cases dev n d.path with
    | written amt errno => exact ih _ _
    | openFails errno =>
      dsimp only
      split
      · exact ih _ _
      · split
        · exact ih _ _
        · exact ih _ _

theorem expectedReports_append (dev : Nat → String → OpenOutcome) (a b : List DeviceWrite) :
    ∀ (flag : Int) (n : Nat), expectedReports dev flag n (a ++ b) =
      expectedReports dev flag n a ++
        expectedReports dev (expectedFlag dev flag n a) (n + a.length) b := by
  induction a with
  | nil => intro flag n; rfl
  | cons d rest ih =>
    intro flag n
    have hn : n + (d :: rest).length = n + 1 + rest.length := by
      simp only [List.length_cons]; omega
    rw [hn]
    simp only [List.cons_append, expectedReports, expectedFlag]
    cases dev n d.path with
    | written amt errno => exact ih _ _
    | openFails errno =>
      dsimp only
      split
      · exact congrArg (List.cons _) (ih _ _)
      · split
        · exact congrArg (List.cons _) (ih _ _)
        · exact ih _ _

theorem failureReports_append (l1 l2 : List LogEntry) :
    failureReports (l1 ++ l2) = failureReports l1 ++ failureReports l2 := by
  unfold failureReports
  exact List.filter_append _ _

theorem reportsAsExpected_refl (w : World) : ReportsAsExpected w w :=
  ⟨rfl, [], by simp, by simp [expectedReports], rfl⟩

theorem reportsAsExpected_trans (w w1 w2 : World) (h1 : ReportsAsExpected w w1)
    (h2 : ReportsAsExpected w1 w2) : ReportsAsExpected w w2 := by
  obtain ⟨d1, ws1, e1, r1, f1⟩ := h1
  obtain ⟨d2, ws2, e2, r2, f2⟩ := h2
  refine ⟨d2.trans d1, ws1 ++ ws2, by rw [e2, e1, List.append_assoc], ?_, ?_⟩
  · rw [r2, r1, d1, f1, e1, List.length_append, expectedReports_append, List.append_assoc]
  · rw [f2, d1, f1, e1, List.length_append, expectedFlag_append]

theorem write_str_reports (p str : String) (w : World) (hp : p ≠ LCD_LED ++ BRIGHTNESS) :
    ReportsAsExpected w (write_str p str w).2 := by
  obtain ⟨hl, ha⟩ := write_str_log p str w
  refine ⟨?_, [⟨p, str⟩], write_str_writes p str w, ?_, ?_⟩
  · unfold write_str
    cases w.dev w.writes.length p with
    | written amt errno => rfl
    | openFails errno => dsimp only; split <;> rfl
  · rw [hl, failureReports_append]
    simp only [expectedReports]
    cases w.dev w.writes.length p with
    | written amt errno => simp [failureReports]
    | openFails errno =>
      dsimp only
      rw [if_neg hp]
      split <;> simp [failureReports, isFailureReport]
  · rw [ha]
    simp only [expectedFlag]
    cases w.dev w.writes.length p with
    | written amt errno => rfl
    | openFails errno =>
      dsimp only
      rw [if_neg hp]

theorem set_str_reports (v : String) (w : World) :
    ReportsAsExpected w (set_str (LCD_LED ++ BRIGHTNESS) v w) := by
  refine ⟨?_, [⟨LCD_LED ++ BRIGHTNESS, v⟩], set_str_writes _ v w, ?_, ?_⟩
  · unfold set_str; split <;> rfl
  · unfold set_str
    simp only [expectedReports]
    cases w.dev w.writes.length (LCD_LED ++ BRIGHTNESS) with
    | written amt errno => simp
    | openFails errno =>
      simp [failureReports_append, failureReports, isFailureReport]
  · unfold set_str
    simp only [expectedFlag]
    cases w.dev w.writes.length (LCD_LED ++ BRIGHTNESS) with
    | written amt errno => rfl
    | openFails errno => simp

theorem log_append_reports (w : World) (e : LogEntry) (he : isFailureReport e = false) :
    ReportsAsExpected w { w with log := w.log ++ [e] } := by
  refine ⟨rfl, [], by simp, ?_, rfl⟩
  simp [failureReports_append, failureReports, he, expectedReports]

theorem write_int_reports (p : String) (v : Int) (w : World)
    (hp : p ≠ LCD_LED ++ BRIGHTNESS) : ReportsAsExpected w (write_int p v w).2 :=
  write_str_reports _ _ w hp

theorem write_blink_reports (p : String) (v a b : Int) (w : World)
    (hp : p ≠ LCD_LED ++ BRIGHTNESS) : ReportsAsExpected w (write_blink p v a b w).2 :=
  write_str_reports _ _ w hp

theorem set_light_locked_reports (s : LightState) (w : World) :
    ReportsAsExpected w (set_light_locked s w).2 := by
  have hr : RED_LED_FILE ≠ LCD_LED ++ BRIGHTNESS := by decide
  have hg : GREEN_LED_FILE ≠ LCD_LED ++ BRIGHTNESS := by decide
  have hrb : RED_BLINK_FILE ≠ LCD_LED ++ BRIGHTNESS := by decide
  have hgb : GREEN_BLINK_FILE ≠ LCD_LED ++ BRIGHTNESS := by decide
  unfold set_light_locked
  dsimp only
  split
  · refine reportsAsExpected_trans _ _ _ ?_ (write_blink_reports _ _ _ _ _ hgb)
    refine reportsAsExpected_trans _ _ _ ?_ (write_blink_reports _ _ _ _ _ hrb)
    refine reportsAsExpected_trans _ _ _ ?_ (write_int_reports _ _ _ hg)
    refine reportsAsExpected_trans _ _ _ ?_ (write_int_reports _ _ _ hr)
    exact log_append_reports w _ rfl
  · refine reportsAsExpected_trans _ _ _ ?_ (write_int_reports _ _ _ hg)
    refine reportsAsExpected_trans _ _ _ ?_ (write_int_reports _ _ _ hr)
    refine reportsAsExpected_trans _ _ _ ?_ (write_int_reports _ _ _ hg)
    refine reportsAsExpected_trans _ _ _ ?_ (write_int_reports _ _ _ hr)
    refine reportsAsExpected_trans _ _ _ ?_ (write_int_reports _ _ _ hgb)
    refine reportsAsExpected_trans _ _ _ ?_ (write_int_reports _ _ _ hrb)
    exact log_append_reports w _ rfl

theorem setLight_reports (t : LightType) (s : LightState) (w : World) :
    ReportsAsExpected w (setLight t s w).2 := by
  rcases supported_or_not t with h | h | h
  · subst h
    unfold setLight
    rw [mapFind_backlight]
    exact set_str_reports _ w
  · rw [setLight_led_eq t s w h]
    exact set_light_locked_reports s w
  · unfold setLight
    rw [h]
    exact reportsAsExpected_refl w

theorem runCalls_reports (calls : List (LightType × LightState)) (w : World) :
    ReportsAsExpected w (runCalls calls w) := by
  induction calls generalizing w with
  | nil => exact reportsAsExpected_refl w
  | cons c rest ih =>
    obtain ⟨t, s⟩ := c
    exact reportsAsExpected_trans _ _ _ (setLight_reports t s w) (ih _)

theorem expected_all_succeed (dev : Nat → String → OpenOutcome) (pre : List DeviceWrite) :
    ∀ (flag : Int) (n : Nat),
      (∀ (j : Nat) (x : DeviceWrite), pre[j]? = some x → x.path ≠ LCD_LED ++ BRIGHTNESS →
        ∃ amt errno, dev (n + j) x.path = OpenOutcome.written amt errno) →
      (expectedReports dev flag n pre).filter isWriteStrWarning = [] ∧
        expectedFlag dev flag n pre = flag := by
  induction pre with
  | nil => intro flag n _; exact ⟨rfl, rfl⟩
  | cons d rest ih =>
    intro flag n h
    have hrest : ∀ (j : Nat) (x : DeviceWrite), rest[j]? = some x →
        x.path ≠ LCD_LED ++ BRIGHTNESS →
        ∃ amt errno, dev (n + 1 + j) x.path = OpenOutcome.written amt errno := by
      intro j x hx hp
      have := h (j + 1) x (by simpa using hx) hp
      rwa [show n + (j + 1) = n + 1 + j by omega] at this
    have h0 := h 0 d (by simp)
    simp only [expectedReports, expectedFlag]
    cases hdev : dev n d.path with
    | written amt errno => exact ih flag (n + 1) hrest
    | openFails errno =>
      dsimp only
      by_cases hp : d.path = LCD_LED ++ BRIGHTNESS
      · rw [if_pos hp, if_pos hp]
        obtain ⟨a, b⟩ := ih flag (n + 1) hrest
        refine ⟨?_, b⟩
        rw [List.filter_cons]
        simpa [isWriteStrWarning] using a
      · obtain ⟨amt, e2, hw⟩ := h0 hp
        rw [Nat.add_zero, hdev] at hw
        exact OpenOutcome.noConfusion hw

theorem expected_flag_set (dev : Nat → String → OpenOutcome) (ws : List DeviceWrite) :
    ∀ (flag : Int) (n : Nat), flag ≠ 0 →
      (expectedReports dev flag n ws).filter isWriteStrWarning = [] := by
  induction ws with
  | nil => intro flag n _; rfl
  | cons d rest ih =>
    intro flag n hf
    simp only [expectedReports]
    cases dev n d.path with
    | written amt errno => exact ih flag (n + 1) hf
    | openFails errno =>
      dsimp only
      split
      · rw [List.filter_cons]
        simpa [isWriteStrWarning] using ih flag (n + 1) hf
      · exact ih flag (n + 1) hf

theorem expected_first_failure (dev : Nat → String → OpenOutcome)
    (pre post : List DeviceWrite) (d : DeviceWrite) (n : Nat) (e : Int)
    (hpre : ∀ (j : Nat) (x : DeviceWrite), pre[j]? = some x →
      x.path ≠ LCD_LED ++ BRIGHTNESS →
      ∃ amt errno, dev (n + j) x.path = OpenOutcome.written amt errno)
    (hp : d.path ≠ LCD_LED ++ BRIGHTNESS)
    (hd : dev (n + pre.length) d.path = OpenOutcome.openFails e) :
    (expectedReports dev 0 n (pre ++ d :: post)).filter isWriteStrWarning =
      [LogEntry.writeStrOpenFailed d.path] := by
  obtain ⟨a, b⟩ := expected_all_succeed dev pre 0 n hpre
  rw [expectedReports_append, List.filter_append, a, b, List.nil_append]
  simp only [expectedReports]
  rw [hd]
  dsimp only
  rw [if_neg hp, if_pos trivial, List.filter_cons]
  simp only [isWriteStrWarning, if_true]
  rw [expected_flag_set dev post 1 _ (by decide)]

theorem warnings_of_failureReports (l : List LogEntry) :
    (failureReports l).filter isWriteStrWarning = l.filter isWriteStrWarning := by
  unfold failureReports
  rw [List.filter_filter]
  congr 1
  funext x
  cases x <;> rfl

theorem runCalls_new_reports (calls : List (LightType × LightState)) (w : World) :
    (runCalls calls w).dev = w.dev ∧
    failureReports ((runCalls calls w).log.drop w.log.length) =
      expectedReports w.dev w.already_warned w.writes.length
        ((runCalls calls w).writes.drop w.writes.length) ∧
    (runCalls calls w).already_warned =
      expectedFlag w.dev w.already_warned w.writes.length
        ((runCalls calls w).writes.drop w.writes.length) := by
  obtain ⟨hd, ws, hw, hr, hf⟩ := runCalls_reports calls w
  obtain ⟨l, hl, _⟩ := runCalls_warns calls w
  rw [hw, List.drop_left, hl, List.drop_left]
  rw [hl, failureReports_append] at hr
  exact ⟨hd, List.append_cancel_left hr, hf⟩

/-! # The claims -/

/-! ## C1 -/

/-- C1: for every light type other than BACKLIGHT, BATTERY, NOTIFICATIONS and
ATTENTION, and every request, `setLight` returns `LIGHT_NOT_SUPPORTED`, leaves the
world as it was, and issues no device write. -/
theorem setLight_unsupported (t : LightType) (s : LightState) (w : World)
    (h0 : t ≠ LightType.BACKLIGHT) (h1 : t ≠ LightType.BATTERY)
    (h2 : t ≠ LightType.NOTIFICATIONS) (h3 : t ≠ LightType.ATTENTION) :
    (setLight t s w).1 = Status.LIGHT_NOT_SUPPORTED ∧ (setLight t s w).2 = w ∧
      callWrites t s w = [] := by
  unfold callWrites setLight
  rw [mapFind_other t h0 h1 h2 h3]
  simp

/-- Witness of C1: KEYBOARD, BUTTONS, BLUETOOTH and WIFI are rejected without a
device write. -/
theorem setLight_unsupported_witness :
    (LightType.KEYBOARD ≠ LightType.BACKLIGHT ∧ LightType.KEYBOARD ≠ LightType.BATTERY ∧
      LightType.KEYBOARD ≠ LightType.NOTIFICATIONS ∧
      LightType.KEYBOARD ≠ LightType.ATTENTION) ∧
    ((setLight LightType.KEYBOARD (request 0x00FF0000 Flash.TIMED 500 500) okWorld).1
        = Status.LIGHT_NOT_SUPPORTED ∧
      (setLight LightType.KEYBOARD (request 0x00FF0000 Flash.TIMED 500 500) okWorld).2
        = okWorld ∧
      callWrites LightType.KEYBOARD (request 0x00FF0000 Flash.TIMED 500 500) okWorld = []) ∧
    callWrites LightType.BUTTONS (request 0x112233 Flash.NONE 0 0) okWorld = [] ∧
    callWrites LightType.BLUETOOTH (request 0x112233 Flash.NONE 0 0) okWorld = [] ∧
    callWrites LightType.WIFI (request 0x112233 Flash.NONE 0 0) failWorld = [] :=
  ⟨by decide,
   setLight_unsupported LightType.KEYBOARD _ okWorld
     (by decide) (by decide) (by decide) (by decide),
   (setLight_unsupported LightType.BUTTONS _ okWorld
     (by decide) (by decide) (by decide) (by decide)).2.2,
   (setLight_unsupported LightType.BLUETOOTH _ okWorld
     (by decide) (by decide) (by decide) (by decide)).2.2,
   (setLight_unsupported LightType.WIFI _ failWorld
     (by decide) (by decide) (by decide) (by decide)).2.2⟩

/-! ## C2 -/

/-- C2: for each of BACKLIGHT, BATTERY, NOTIFICATIONS and ATTENTION and every
request, `setLight` returns `SUCCESS` in every world, that is, whatever the
kernel answers to each device write. -/
theorem setLight_supported_success (t : LightType) (s : LightState) (w : World)
    (ht : t = LightType.BACKLIGHT ∨ t = LightType.BATTERY ∨ t = LightType.NOTIFICATIONS ∨
      t = LightType.ATTENTION) :
    (setLight t s w).1 = Status.SUCCESS := by
  unfold setLight
  rcases ht with h | h
  · subst h; rw [mapFind_backlight]
  · rw [mapFind_led t h]

/-- Witness of C2: NOTIFICATIONS succeeds although no control file can be opened. -/
theorem setLight_supported_success_witness :
    (LightType.NOTIFICATIONS = LightType.BACKLIGHT ∨
      LightType.NOTIFICATIONS = LightType.BATTERY ∨
      LightType.NOTIFICATIONS = LightType.NOTIFICATIONS ∨
      LightType.NOTIFICATIONS = LightType.ATTENTION) ∧
    (setLight LightType.NOTIFICATIONS (request 0x00FF0000 Flash.TIMED 500 500) failWorld).1
      = Status.SUCCESS :=
  ⟨by decide, setLight_supported_success _ _ failWorld (by decide)⟩

/-! ## C3 -/

/-- C3: `getSupportedTypes` returns a sequence without repetition whose elements
are exactly BACKLIGHT, BATTERY, NOTIFICATIONS and ATTENTION, and a type is in the
sequence exactly when `setLight` on it returns `SUCCESS`. -/
theorem getSupportedTypes_exact (w : World) :
    (∀ t : LightType, t ∈ (getSupportedTypes w).1 ↔
      (t = LightType.BACKLIGHT ∨ t = LightType.BATTERY ∨ t = LightType.NOTIFICATIONS ∨
        t = LightType.ATTENTION)) ∧
    (getSupportedTypes w).1.Nodup ∧
    (∀ (t : LightType) (s : LightState) (w1 : World),
      t ∈ (getSupportedTypes w).1 ↔ (setLight t s w1).1 = Status.SUCCESS) := by
  have hl : (getSupportedTypes w).1 =
      [LightType.BACKLIGHT, LightType.BATTERY, LightType.NOTIFICATIONS,
        LightType.ATTENTION] := by
    unfold getSupportedTypes; rw [lights_eq]; rfl
  have hmem : ∀ t : LightType, t ∈ (getSupportedTypes w).1 ↔
      (t = LightType.BACKLIGHT ∨ t = LightType.BATTERY ∨ t = LightType.NOTIFICATIONS ∨
        t = LightType.ATTENTION) := by
    intro t; rw [hl]; simp
  refine ⟨hmem, by rw [hl]; decide, ?_⟩
  intro t s w1
  rw [hmem]
  constructor
  · exact setLight_status_supported t s w1
  · intro hs
    by_contra hne
    push_neg at hne
    have := (setLight_status_unsupported t s w1 hne.1 hne.2.1 hne.2.2.1 hne.2.2.2)
    rw [this] at hs
    exact Status.noConfusion hs

/-! ## C4 -/

/-- C4: for every request, `setLight` on BACKLIGHT issues exactly one device write;
it goes to `/sys/class/backlight/psb-bl/brightness` and carries the decimal digits
of `color mod 256`, a number below 256.  For color `0x112233` the text is `51`. -/
theorem setLight_backlight_one_write (s : LightState) (w : World) :
    (setLight LightType.BACKLIGHT s w).2.writes =
      w.writes ++ [⟨"/sys/class/backlight/psb-bl/brightness", Nat.repr (s.color % 256)⟩] ∧
    callWrites LightType.BACKLIGHT s w =
      [⟨"/sys/class/backlight/psb-bl/brightness", Nat.repr (s.color % 256)⟩] ∧
    s.color % 256 < 256 ∧
    callWrites LightType.BACKLIGHT { s with color := 0x112233 } w =
      [⟨"/sys/class/backlight/psb-bl/brightness", "51"⟩] := by
  have hp : LCD_LED ++ BRIGHTNESS = "/sys/class/backlight/psb-bl/brightness" := by decide
  refine ⟨?_, ?_, Nat.mod_lt _ (by norm_num), ?_⟩
  · rw [setLight_writes_backlight, callWrites_backlight, hp]
  · rw [callWrites_backlight, hp]
  · rw [callWrites_backlight, hp]
    have h51 : Nat.repr (0x112233 % 256) = "51" := by decide
    exact congrArg (fun v => [DeviceWrite.mk "/sys/class/backlight/psb-bl/brightness" v]) h51

/-! ## C5 -/

/-- C5: for every color, the intensities `(red, green)` that `set_light_locked`
uses after the collapse step are `(blue, blue)` when `blue = color & 0xFF` is not
zero, and `((color >> 16) & 0xFF, (color >> 8) & 0xFF)` when it is zero; in
arithmetic terms `blue = color mod 256`, and the two other bytes are
`color / 65536 mod 256` and `color / 256 mod 256`.  These are the values the
function logs.  Color `0x000000FF` gives `(255, 255)`. -/
theorem ledChannels_collapse (c : Nat) (s : LightState) (w : World) :
    ledChannels c =
      (if c &&& 0xFF ≠ 0 then (((c &&& 0xFF : Nat) : Int), ((c &&& 0xFF : Nat) : Int))
       else ((((c >>> 16) &&& 0xFF : Nat) : Int), (((c >>> 8) &&& 0xFF : Nat) : Int))) ∧
    ledChannels c =
      (if c % 256 ≠ 0 then (((c % 256 : Nat) : Int), ((c % 256 : Nat) : Int))
       else (((c / 65536 % 256 : Nat) : Int), ((c / 256 % 256 : Nat) : Int))) ∧
    ledChannels 0x000000FF = (255, 255) ∧
    (set_light_locked s w).2.log[w.log.length]? =
      some (LogEntry.setLightLocked s.color (ledChannels s.color).1 (ledChannels s.color).2
        (blinkOf s.flashMode)) := by
  refine ⟨rfl, ledChannels_eq c, by decide, ?_⟩
  exact set_light_locked_log_entry s w

/-! ## C6 -/

/-- C6: for every request on BATTERY, NOTIFICATIONS or ATTENTION whose flash mode is
neither TIMED nor HARDWARE, the device writes are exactly, in this order: `0` to red
blink, `0` to green blink, `0` to red brightness, `0` to green brightness, the
post-collapse red intensity to red brightness, the post-collapse green intensity to
green brightness.  Every write to a blink path carries `0`, and the writes do not
depend on `flashOnMs` and `flashOffMs`. -/
theorem steady_mode_writes (t : LightType) (s : LightState) (w : World)
    (ht : t = LightType.BATTERY ∨ t = LightType.NOTIFICATIONS ∨ t = LightType.ATTENTION)
    (h1 : s.flashMode ≠ Flash.TIMED) (h2 : s.flashMode ≠ Flash.HARDWARE) :
    (setLight t s w).2.writes = w.writes ++
      [ ⟨"/sys/class/leds/red/blink", "0\n"⟩,
        ⟨"/sys/class/leds/green/blink", "0\n"⟩,
        ⟨"/sys/class/leds/red/brightness", "0\n"⟩,
        ⟨"/sys/class/leds/green/brightness", "0\n"⟩,
        ⟨"/sys/class/leds/red/brightness", fmt_d (ledChannels s.color).1 ++ "\n"⟩,
        ⟨"/sys/class/leds/green/brightness", fmt_d (ledChannels s.color).2 ++ "\n"⟩ ] ∧
    (∀ d ∈ callWrites t s w,
      d.path = "/sys/class/leds/red/blink" ∨ d.path = "/sys/class/leds/green/blink" →
        d.value = "0\n") ∧
    (∀ on_ms off_ms : Int,
      callWrites t { s with flashOnMs := on_ms, flashOffMs := off_ms } w =
        callWrites t s w) := by
  have hw := steady_led_writes t s w ht h1 h2
  refine ⟨?_, ?_, ?_⟩
  · rw [setLight_writes_led t s w ht, hw]; rfl
  · intro d hd hp
    rw [hw] at hd
    simp only [List.mem_cons, List.mem_singleton, List.not_mem_nil, or_false] at hd
    rcases hd with h | h | h | h | h | h <;> subst h
    · rfl
    · rfl
    all_goals
      dsimp only at hp
      exact absurd hp (by decide)
  · intro on_ms off_ms
    exact (steady_led_writes t { s with flashOnMs := on_ms, flashOffMs := off_ms } w
      ht h1 h2).trans hw.symm

/-- Witness of C6: on BATTERY in steady mode, color `0x00FF0000` ends with red 255
and green 0, and color `0x0000FF00` ends with red 0 and green 255. -/
theorem steady_mode_writes_witness :
    (LightType.BATTERY = LightType.BATTERY ∨ LightType.BATTERY = LightType.NOTIFICATIONS ∨
      LightType.BATTERY = LightType.ATTENTION) ∧
    (request 0x00FF0000 Flash.NONE 500 500).flashMode ≠ Flash.TIMED ∧
    (request 0x00FF0000 Flash.NONE 500 500).flashMode ≠ Flash.HARDWARE ∧
    (setLight LightType.BATTERY (request 0x00FF0000 Flash.NONE 500 500) okWorld).2.writes =
      [ ⟨"/sys/class/leds/red/blink", "0\n"⟩,
        ⟨"/sys/class/leds/green/blink", "0\n"⟩,
        ⟨"/sys/class/leds/red/brightness", "0\n"⟩,
        ⟨"/sys/class/leds/green/brightness", "0\n"⟩,
        ⟨"/sys/class/leds/red/brightness", "255\n"⟩,
        ⟨"/sys/class/leds/green/brightness", "0\n"⟩ ] ∧
    (setLight LightType.BATTERY (request 0x0000FF00 Flash.NONE 500 500) okWorld).2.writes =
      [ ⟨"/sys/class/leds/red/blink", "0\n"⟩,
        ⟨"/sys/class/leds/green/blink", "0\n"⟩,
        ⟨"/sys/class/leds/red/brightness", "0\n"⟩,
        ⟨"/sys/class/leds/green/brightness", "0\n"⟩,
        ⟨"/sys/class/leds/red/brightness", "0\n"⟩,
        ⟨"/sys/class/leds/green/brightness", "255\n"⟩ ] :=
  ⟨by decide, by decide, by decide,
   (steady_mode_writes LightType.BATTERY (request 0x00FF0000 Flash.NONE 500 500) okWorld
     (by decide) (by decide) (by decide)).1,
   (steady_mode_writes LightType.BATTERY (request 0x0000FF00 Flash.NONE 500 500) okWorld
     (by decide) (by decide) (by decide)).1⟩

/-! ## C7 -/

/-- C7: for every request on BATTERY, NOTIFICATIONS or ATTENTION whose flash mode is
TIMED or HARDWARE (with `int32_t` durations), the device writes are exactly four:
`0` to red brightness, `0` to green brightness, then `eR flashOnMs flashOffMs` to red
blink and `eG flashOnMs flashOffMs` to green blink, where `eR` (`eG`) is 1 when the
post-collapse red (green) intensity is not zero and 0 otherwise. -/
theorem blink_mode_writes (t : LightType) (s : LightState) (w : World)
    (ht : t = LightType.BATTERY ∨ t = LightType.NOTIFICATIONS ∨ t = LightType.ATTENTION)
    (hm : s.flashMode = Flash.TIMED ∨ s.flashMode = Flash.HARDWARE)
    (hon : IsInt32 s.flashOnMs) (hoff : IsInt32 s.flashOffMs) :
    (setLight t s w).2.writes = w.writes ++
      [ ⟨"/sys/class/leds/red/brightness", "0\n"⟩,
        ⟨"/sys/class/leds/green/brightness", "0\n"⟩,
        ⟨"/sys/class/leds/red/blink",
          fmt_d (if (ledChannels s.color).1 ≠ 0 then 1 else 0) ++ " " ++
            fmt_d s.flashOnMs ++ " " ++ fmt_d s.flashOffMs ++ "\n"⟩,
        ⟨"/sys/class/leds/green/blink",
          fmt_d (if (ledChannels s.color).2 ≠ 0 then 1 else 0) ++ " " ++
            fmt_d s.flashOnMs ++ " " ++ fmt_d s.flashOffMs ++ "\n"⟩ ] := by
  rw [setLight_writes_led t s w ht, blink_led_writes t s w ht hm hon hoff]
  rfl

/-- Witness of C7: color `0x00FF0000`, TIMED, 500/500 on BATTERY writes `1 500 500`
to red blink and `0 500 500` to green blink, after zeroing both brightness paths. -/
theorem blink_mode_writes_witness :
    (LightType.BATTERY = LightType.BATTERY ∨ LightType.BATTERY = LightType.NOTIFICATIONS ∨
      LightType.BATTERY = LightType.ATTENTION) ∧
    ((request 0x00FF0000 Flash.TIMED 500 500).flashMode = Flash.TIMED ∨
      (request 0x00FF0000 Flash.TIMED 500 500).flashMode = Flash.HARDWARE) ∧
    IsInt32 (request 0x00FF0000 Flash.TIMED 500 500).flashOnMs ∧
    IsInt32 (request 0x00FF0000 Flash.TIMED 500 500).flashOffMs ∧
    (setLight LightType.BATTERY (request 0x00FF0000 Flash.TIMED 500 500) okWorld).2.writes =
      [ ⟨"/sys/class/leds/red/brightness", "0\n"⟩,
        ⟨"/sys/class/leds/green/brightness", "0\n"⟩,
        ⟨"/sys/class/leds/red/blink", "1 500 500\n"⟩,
        ⟨"/sys/class/leds/green/blink", "0 500 500\n"⟩ ] :=
  ⟨by decide, by decide, by decide, by decide,
   blink_mode_writes LightType.BATTERY (request 0x00FF0000 Flash.TIMED 500 500) okWorld
     (by decide) (by decide) (by decide) (by decide)⟩

/-! ## C8 -/

/-- Counterexample to C8 as stated: on BACKLIGHT with color `0x112233` the single
write goes to the backlight brightness path with the text `51`, and that text is not
a decimal integer followed by a newline. -/
theorem backlight_text_not_newline_terminated :
    callWrites LightType.BACKLIGHT (request 0x112233 Flash.NONE 0 0) okWorld =
      [⟨"/sys/class/backlight/psb-bl/brightness", "51"⟩] ∧
    ¬ (∀ d ∈ callWrites LightType.BACKLIGHT (request 0x112233 Flash.NONE 0 0) okWorld,
        d.path = "/sys/class/backlight/psb-bl/brightness" → IsBrightnessText d.value) := by
  have hw : callWrites LightType.BACKLIGHT (request 0x112233 Flash.NONE 0 0) okWorld =
      [⟨"/sys/class/backlight/psb-bl/brightness", "51"⟩] := by decide
  refine ⟨hw, ?_⟩
  intro h
  have h51 := h ⟨"/sys/class/backlight/psb-bl/brightness", "51"⟩ (by rw [hw]; simp) rfl
  have hl := brightnessText_last _ h51
  exact absurd hl (by decide)

/-- C8 (amended): on BATTERY, NOTIFICATIONS and ATTENTION every text written to the
red or green LED brightness path is a decimal integer followed by a newline; on
BACKLIGHT the one text written to the backlight brightness path is the decimal
digits of `color mod 256` and nothing else, so it does not end in a newline.  The
integers written to the LED brightness paths are 0 and the post-collapse
intensities. -/
theorem brightness_text_format (t : LightType) (s : LightState) (w : World)
    (ht : t = LightType.BATTERY ∨ t = LightType.NOTIFICATIONS ∨ t = LightType.ATTENTION) :
    (∀ d ∈ callWrites t s w,
      d.path = "/sys/class/leds/red/brightness" ∨
        d.path = "/sys/class/leds/green/brightness" →
          IsBrightnessText d.value ∧
          ∃ v : Int, (v = 0 ∨ v = (ledChannels s.color).1 ∨ v = (ledChannels s.color).2) ∧
            d.value = fmt_d v ++ "\n") ∧
    callWrites LightType.BACKLIGHT s w =
      [⟨"/sys/class/backlight/psb-bl/brightness", Nat.repr (s.color % 256)⟩] ∧
    (Nat.repr (s.color % 256)).data.getLast? ≠ some '\n' ∧
    ¬ IsBrightnessText (Nat.repr (s.color % 256)) := by
  have hlast := repr_byte_no_newline (s.color % 256) (Nat.mod_lt _ (by norm_num))
  have hp : LCD_LED ++ BRIGHTNESS = "/sys/class/backlight/psb-bl/brightness" := by decide
  refine ⟨?_, by rw [callWrites_backlight, hp], hlast,
    fun h => hlast (brightnessText_last _ h)⟩
  intro d hd hpath
  by_cases hm : s.flashMode = Flash.TIMED ∨ s.flashMode = Flash.HARDWARE
  · rw [callWrites_led_eq t s w ht, blinkOf_blink _ hm] at hd
    simp only [ne_eq, one_ne_zero, not_false_eq_true, if_true, List.mem_cons,
      List.mem_singleton, List.not_mem_nil, or_false] at hd
    rcases hd with h | h | h | h <;> subst h
    · exact ⟨zero_text_brightness, 0, Or.inl rfl, by decide⟩
    · exact ⟨zero_text_brightness, 0, Or.inl rfl, by decide⟩
    all_goals
      dsimp only at hpath
      exact absurd hpath (by decide)
  · push_neg at hm
    rw [steady_led_writes t s w ht hm.1 hm.2] at hd
    simp only [List.mem_cons, List.mem_singleton, List.not_mem_nil, or_false] at hd
    rcases hd with h | h | h | h | h | h <;> subst h
    · exact absurd hpath (by decide)
    · exact absurd hpath (by decide)
    · exact ⟨⟨0, by decide⟩, 0, Or.inl rfl, by decide⟩
    · exact ⟨⟨0, by decide⟩, 0, Or.inl rfl, by decide⟩
    · exact ⟨⟨_, rfl⟩, _, Or.inr (Or.inl rfl), rfl⟩
    · exact ⟨⟨_, rfl⟩, _, Or.inr (Or.inr rfl), rfl⟩

/-- Witness of C8 (amended): ATTENTION in steady mode with color `0x00123400`. -/
theorem brightness_text_format_witness :
    (LightType.ATTENTION = LightType.BATTERY ∨
      LightType.ATTENTION = LightType.NOTIFICATIONS ∨
      LightType.ATTENTION = LightType.ATTENTION) ∧
    (∀ d ∈ callWrites LightType.ATTENTION (request 0x00123400 Flash.NONE 0 0) okWorld,
      d.path = "/sys/class/leds/red/brightness" ∨
        d.path = "/sys/class/leds/green/brightness" →
          IsBrightnessText d.value ∧
          ∃ v : Int, (v = 0 ∨ v = 18 ∨ v = 52) ∧ d.value = fmt_d v ++ "\n") ∧
    callWrites LightType.ATTENTION (request 0x00123400 Flash.NONE 0 0) okWorld =
      [ ⟨"/sys/class/leds/red/blink", "0\n"⟩,
        ⟨"/sys/class/leds/green/blink", "0\n"⟩,
        ⟨"/sys/class/leds/red/brightness", "0\n"⟩,
        ⟨"/sys/class/leds/green/brightness", "0\n"⟩,
        ⟨"/sys/class/leds/red/brightness", "18\n"⟩,
        ⟨"/sys/class/leds/green/brightness", "52\n"⟩ ] :=
  ⟨by decide,
   (brightness_text_format LightType.ATTENTION (request 0x00123400 Flash.NONE 0 0) okWorld
     (by decide)).1,
   by decide⟩

/-! ## C9 -/

/-- Counterexample to C9 as stated: on BATTERY in steady mode (color `0x00FF0000`,
flash mode NONE) the text written to the red blink path is `0` and a newline, which
is not three whitespace-separated integers followed by a newline. -/
theorem steady_blink_text_not_three_integers :
    callWrites LightType.BATTERY (request 0x00FF0000 Flash.NONE 0 0) okWorld =
      [ ⟨"/sys/class/leds/red/blink", "0\n"⟩,
        ⟨"/sys/class/leds/green/blink", "0\n"⟩,
        ⟨"/sys/class/leds/red/brightness", "0\n"⟩,
        ⟨"/sys/class/leds/green/brightness", "0\n"⟩,
        ⟨"/sys/class/leds/red/brightness", "255\n"⟩,
        ⟨"/sys/class/leds/green/brightness", "0\n"⟩ ] ∧
    ¬ (∀ d ∈ callWrites LightType.BATTERY (request 0x00FF0000 Flash.NONE 0 0) okWorld,
        d.path = "/sys/class/leds/red/blink" ∨ d.path = "/sys/class/leds/green/blink" →
          IsBlinkText d.value) := by
  have hw : callWrites LightType.BATTERY (request 0x00FF0000 Flash.NONE 0 0) okWorld =
      [ ⟨"/sys/class/leds/red/blink", "0\n"⟩,
        ⟨"/sys/class/leds/green/blink", "0\n"⟩,
        ⟨"/sys/class/leds/red/brightness", "0\n"⟩,
        ⟨"/sys/class/leds/green/brightness", "0\n"⟩,
        ⟨"/sys/class/leds/red/brightness", "255\n"⟩,
        ⟨"/sys/class/leds/green/brightness", "0\n"⟩ ] := by decide
  refine ⟨hw, ?_⟩
  intro h
  have h0 := h ⟨"/sys/class/leds/red/blink", "0\n"⟩ (by rw [hw]; simp) (Or.inl rfl)
  have hl := blinkText_length _ h0
  exact absurd hl (by decide)

/-- C9 (amended): on BATTERY, NOTIFICATIONS and ATTENTION with `int32_t` durations,
in blink mode (TIMED or HARDWARE) every text written to a blink path is
`e flashOnMs flashOffMs` and a newline with `e` 0 or 1, hence three
whitespace-separated decimal integers followed by a newline; in steady mode every
text written to a blink path is the single integer `0` followed by a newline. -/
theorem blink_text_format (t : LightType) (s : LightState) (w : World)
    (ht : t = LightType.BATTERY ∨ t = LightType.NOTIFICATIONS ∨ t = LightType.ATTENTION)
    (hon : IsInt32 s.flashOnMs) (hoff : IsInt32 s.flashOffMs) :
    ((s.flashMode = Flash.TIMED ∨ s.flashMode = Flash.HARDWARE) →
      ∀ d ∈ callWrites t s w,
        d.path = "/sys/class/leds/red/blink" ∨ d.path = "/sys/class/leds/green/blink" →
          IsBlinkText d.value ∧
          ∃ e : Int, (e = 0 ∨ e = 1) ∧
            d.value = fmt_d e ++ " " ++ fmt_d s.flashOnMs ++ " " ++ fmt_d s.flashOffMs
              ++ "\n") ∧
    (¬ (s.flashMode = Flash.TIMED ∨ s.flashMode = Flash.HARDWARE) →
      ∀ d ∈ callWrites t s w,
        d.path = "/sys/class/leds/red/blink" ∨ d.path = "/sys/class/leds/green/blink" →
          d.value = "0\n") := by
  constructor
  · intro hm d hd hpath
    rw [blink_led_writes t s w ht hm hon hoff] at hd
    simp only [List.mem_cons, List.mem_singleton, List.not_mem_nil, or_false] at hd
    rcases hd with h | h | h | h <;> subst h
    · dsimp only at hpath
      exact absurd hpath (by decide)
    · dsimp only at hpath
      exact absurd hpath (by decide)
    · refine ⟨⟨_, _, _, " ", " ", isBlank_space, isBlank_space, rfl⟩, _, ?_, rfl⟩
      split <;> simp
    · refine ⟨⟨_, _, _, " ", " ", isBlank_space, isBlank_space, rfl⟩, _, ?_, rfl⟩
      split <;> simp
  · intro hm d hd hpath
    push_neg at hm
    rw [steady_led_writes t s w ht hm.1 hm.2] at hd
    simp only [List.mem_cons, List.mem_singleton, List.not_mem_nil, or_false] at hd
    rcases hd with h | h | h | h | h | h <;> subst h
    · rfl
    · rfl
    all_goals
      dsimp only at hpath
      exact absurd hpath (by decide)

/-- Witness of C9 (amended): BATTERY, color `0x00FF0000`, TIMED, 500/500. -/
theorem blink_text_format_witness :
    (LightType.BATTERY = LightType.BATTERY ∨ LightType.BATTERY = LightType.NOTIFICATIONS ∨
      LightType.BATTERY = LightType.ATTENTION) ∧
    IsInt32 (request 0x00FF0000 Flash.TIMED 500 500).flashOnMs ∧
    IsInt32 (request 0x00FF0000 Flash.TIMED 500 500).flashOffMs ∧
    ((request 0x00FF0000 Flash.TIMED 500 500).flashMode = Flash.TIMED ∨
      (request 0x00FF0000 Flash.TIMED 500 500).flashMode = Flash.HARDWARE) ∧
    (∀ d ∈ callWrites LightType.BATTERY (request 0x00FF0000 Flash.TIMED 500 500) okWorld,
      d.path = "/sys/class/leds/red/blink" ∨ d.path = "/sys/class/leds/green/blink" →
        IsBlinkText d.value ∧
        ∃ e : Int, (e = 0 ∨ e = 1) ∧ d.value = fmt_d e ++ " " ++ fmt_d 500 ++ " " ++
          fmt_d 500 ++ "\n") :=
  ⟨by decide, by decide, by decide, by decide,
   (blink_text_format LightType.BATTERY (request 0x00FF0000 Flash.TIMED 500 500) okWorld
     (by decide) (by decide) (by decide)).1 (by decide)⟩

/-! ## C10 -/

/-- C10: two requests that agree on flash mode, `flashOnMs`, `flashOffMs` and the
low 24 bits of color (so differ at most in the alpha byte) produce the same
device-write sequence on BATTERY, NOTIFICATIONS and ATTENTION, in any two worlds. -/
theorem alpha_ignored (t : LightType) (s1 s2 : LightState) (w1 w2 : World)
    (ht : t = LightType.BATTERY ∨ t = LightType.NOTIFICATIONS ∨ t = LightType.ATTENTION)
    (hm : s1.flashMode = s2.flashMode) (hon : s1.flashOnMs = s2.flashOnMs)
    (hoff : s1.flashOffMs = s2.flashOffMs)
    (hc : s1.color % 16777216 = s2.color % 16777216) :
    callWrites t s1 w1 = callWrites t s2 w2 := by
  rw [callWrites_led_eq t s1 w1 ht, callWrites_led_eq t s2 w2 ht,
    ledChannels_low24 _ _ hc, hm, hon, hoff]

/-- Witness of C10: colors `0xFF00FF00` and `0x0000FF00` give the same writes on
NOTIFICATIONS, here in a world where the files open and one where they do not. -/
theorem alpha_ignored_witness :
    (LightType.NOTIFICATIONS = LightType.BATTERY ∨
      LightType.NOTIFICATIONS = LightType.NOTIFICATIONS ∨
      LightType.NOTIFICATIONS = LightType.ATTENTION) ∧
    (request 0xFF00FF00 Flash.TIMED 300 700).flashMode =
      (request 0x0000FF00 Flash.TIMED 300 700).flashMode ∧
    (request 0xFF00FF00 Flash.TIMED 300 700).flashOnMs =
      (request 0x0000FF00 Flash.TIMED 300 700).flashOnMs ∧
    (request 0xFF00FF00 Flash.TIMED 300 700).flashOffMs =
      (request 0x0000FF00 Flash.TIMED 300 700).flashOffMs ∧
    (request 0xFF00FF00 Flash.TIMED 300 700).color % 16777216 =
      (request 0x0000FF00 Flash.TIMED 300 700).color % 16777216 ∧
    callWrites LightType.NOTIFICATIONS (request 0xFF00FF00 Flash.TIMED 300 700) okWorld =
      callWrites LightType.NOTIFICATIONS (request 0x0000FF00 Flash.TIMED 300 700) failWorld :=
  ⟨by decide, by decide, by decide, by decide, by decide,
   alpha_ignored LightType.NOTIFICATIONS _ _ okWorld failWorld
     (by decide) (by decide) (by decide) (by decide) (by decide)⟩

/-! ## C11 -/

/-- C11: issuing the same `setLight` call twice in a row gives, the second time, the
same status and the same device-write sequence as the first, from any prior world
(any value of the warning flag, any log, any earlier writes); indeed status and
device writes of a call are the same in every world.  This holds for every light
type, in particular for the four supported ones. -/
theorem setLight_twice_same (t : LightType) (s : LightState) (w : World) :
    (setLight t s (setLight t s w).2).1 = (setLight t s w).1 ∧
    callWrites t s (setLight t s w).2 = callWrites t s w ∧
    (setLight t s (setLight t s w).2).2.writes =
      w.writes ++ callWrites t s w ++ callWrites t s w ∧
    (∀ w1 : World, (setLight t s w1).1 = (setLight t s w).1 ∧
      callWrites t s w1 = callWrites t s w) := by
  refine ⟨setLight_status_indep t s _ _, callWrites_world_indep t s _ _, ?_, ?_⟩
  · rw [setLight_writes_eq, setLight_writes_eq,
      callWrites_world_indep t s (setLight t s w).2 w]
  · intro w1
    exact ⟨setLight_status_indep t s _ _, callWrites_world_indep t s _ _⟩

/-! ## C13 -/

/-- Counterexample to C13 as stated: on BATTERY in blink mode (color `0x00FF0000`,
TIMED, 500/500) the only write to the red blink control is `1 500 500`, so at no
point of the write sequence have all four LED outputs been switched off. -/
theorem blink_mode_no_zeroed_step :
    callWrites LightType.BATTERY (request 0x00FF0000 Flash.TIMED 500 500) okWorld =
      [ ⟨"/sys/class/leds/red/brightness", "0\n"⟩,
        ⟨"/sys/class/leds/green/brightness", "0\n"⟩,
        ⟨"/sys/class/leds/red/blink", "1 500 500\n"⟩,
        ⟨"/sys/class/leds/green/blink", "0 500 500\n"⟩ ] ∧
    ¬ HasZeroedStep true
      (callWrites LightType.BATTERY (request 0x00FF0000 Flash.TIMED 500 500) okWorld) := by
  have hw : callWrites LightType.BATTERY (request 0x00FF0000 Flash.TIMED 500 500) okWorld =
      [ ⟨"/sys/class/leds/red/brightness", "0\n"⟩,
        ⟨"/sys/class/leds/green/brightness", "0\n"⟩,
        ⟨"/sys/class/leds/red/blink", "1 500 500\n"⟩,
        ⟨"/sys/class/leds/green/blink", "0 500 500\n"⟩ ] := by decide
  refine ⟨hw, ?_⟩
  rintro ⟨k, hz, _⟩
  obtain ⟨d, hd, hp, hoffw⟩ := hz RED_BLINK_FILE (by simp)
  have hmem := List.mem_of_mem_take hd
  rw [hw] at hmem
  simp only [List.mem_cons, List.mem_singleton, List.not_mem_nil, or_false] at hmem
  rcases hmem with h | h | h | h <;> subst h
  · exact absurd hp (by decide)
  · exact absurd hp (by decide)
  · rcases hoffw with h0 | ⟨a, b, hab⟩
    · exact absurd h0 (by decide)
    · have hh := congrArg (fun t : String => t.data.head?) hab
      dsimp only at hh
      rw [off_command_head] at hh
      exact absurd hh (by decide)
  · exact absurd hp (by decide)

/-- C13 (amended): on BATTERY, NOTIFICATIONS and ATTENTION (with `int32_t`
durations), in steady mode the first four writes switch off red blink, green blink,
red brightness and green brightness, and the two intensity writes come after them;
in blink mode the first two writes switch off red and green brightness and the two
blink commands come after them, the blink controls not being written before. -/
theorem zeroed_step (t : LightType) (s : LightState) (w : World)
    (ht : t = LightType.BATTERY ∨ t = LightType.NOTIFICATIONS ∨ t = LightType.ATTENTION)
    (hon : IsInt32 s.flashOnMs) (hoff : IsInt32 s.flashOffMs) :
    (¬ (s.flashMode = Flash.TIMED ∨ s.flashMode = Flash.HARDWARE) →
      HasZeroedStep false (callWrites t s w) ∧
      (callWrites t s w).take 4 =
        [ ⟨"/sys/class/leds/red/blink", "0\n"⟩,
          ⟨"/sys/class/leds/green/blink", "0\n"⟩,
          ⟨"/sys/class/leds/red/brightness", "0\n"⟩,
          ⟨"/sys/class/leds/green/brightness", "0\n"⟩ ] ∧
      (callWrites t s w).drop 4 =
        [ ⟨"/sys/class/leds/red/brightness", fmt_d (ledChannels s.color).1 ++ "\n"⟩,
          ⟨"/sys/class/leds/green/brightness", fmt_d (ledChannels s.color).2 ++ "\n"⟩ ]) ∧
    ((s.flashMode = Flash.TIMED ∨ s.flashMode = Flash.HARDWARE) →
      (callWrites t s w).take 2 =
        [ ⟨"/sys/class/leds/red/brightness", "0\n"⟩,
          ⟨"/sys/class/leds/green/brightness", "0\n"⟩ ] ∧
      (callWrites t s w).drop 2 =
        [ ⟨"/sys/class/leds/red/blink",
            fmt_d (if (ledChannels s.color).1 ≠ 0 then 1 else 0) ++ " " ++
              fmt_d s.flashOnMs ++ " " ++ fmt_d s.flashOffMs ++ "\n"⟩,
          ⟨"/sys/class/leds/green/blink",
            fmt_d (if (ledChannels s.color).2 ≠ 0 then 1 else 0) ++ " " ++
              fmt_d s.flashOnMs ++ " " ++ fmt_d s.flashOffMs ++ "\n"⟩ ] ∧
      (∀ d ∈ (callWrites t s w).take 2, IsOffWrite d ∧ ¬ IsModeOutput true d)) := by
  constructor
  · intro hm
    push_neg at hm
    rw [steady_led_writes t s w ht hm.1 hm.2]
    refine ⟨⟨4, zero_writes_allZeroed, ?_⟩, rfl, rfl⟩
    intro d hd
    simp only [List.take_succ_cons, List.take_zero, List.mem_cons, List.mem_singleton,
      List.not_mem_nil, or_false] at hd
    rcases hd with h | h | h | h <;> subst h <;> simp [IsModeOutput]
  · intro hm
    rw [blink_led_writes t s w ht hm hon hoff]
    refine ⟨rfl, rfl, ?_⟩
    intro d hd
    simp only [List.take_succ_cons, List.take_zero, List.mem_cons, List.mem_singleton,
      List.not_mem_nil, or_false] at hd
    rcases hd with h | h <;> subst h
    · exact ⟨Or.inl rfl, by unfold IsModeOutput; decide⟩
    · exact ⟨Or.inl rfl, by unfold IsModeOutput; decide⟩

/-- Witness of C13 (amended): ATTENTION with color `0x00FF0000`, steady and blinking. -/
theorem zeroed_step_witness :
    (LightType.ATTENTION = LightType.BATTERY ∨
      LightType.ATTENTION = LightType.NOTIFICATIONS ∨
      LightType.ATTENTION = LightType.ATTENTION) ∧
    IsInt32 (request 0x00FF0000 Flash.NONE 500 500).flashOnMs ∧
    IsInt32 (request 0x00FF0000 Flash.NONE 500 500).flashOffMs ∧
    (HasZeroedStep false
        (callWrites LightType.ATTENTION (request 0x00FF0000 Flash.NONE 500 500) okWorld) ∧
      (callWrites LightType.ATTENTION (request 0x00FF0000 Flash.NONE 500 500) okWorld).take 4 =
        [ ⟨"/sys/class/leds/red/blink", "0\n"⟩,
          ⟨"/sys/class/leds/green/blink", "0\n"⟩,
          ⟨"/sys/class/leds/red/brightness", "0\n"⟩,
          ⟨"/sys/class/leds/green/brightness", "0\n"⟩ ] ∧
      (callWrites LightType.ATTENTION (request 0x00FF0000 Flash.NONE 500 500) okWorld).drop 4 =
        [ ⟨"/sys/class/leds/red/brightness", "255\n"⟩,
          ⟨"/sys/class/leds/green/brightness", "0\n"⟩ ]) ∧
    (callWrites LightType.ATTENTION (request 0x00FF0000 Flash.TIMED 500 500) okWorld).drop 2 =
      [ ⟨"/sys/class/leds/red/blink", "1 500 500\n"⟩,
        ⟨"/sys/class/leds/green/blink", "0 500 500\n"⟩ ] :=
  ⟨by decide, by decide, by decide,
   (zeroed_step LightType.ATTENTION (request 0x00FF0000 Flash.NONE 500 500) okWorld
     (by decide) (by decide) (by decide)).1 (by decide),
   ((zeroed_step LightType.ATTENTION (request 0x00FF0000 Flash.TIMED 500 500) okWorld
     (by decide) (by decide) (by decide)).2 (by decide)).2.1⟩

/-! ## C14 -/

/-- Counterexample to C14 as stated: in a fresh world where no control file can be
opened, the calls BACKLIGHT, BATTERY, BACKLIGHT attempt all five control paths, yet
the log holds two reports for the backlight path, one for the red blink path and
none for the green blink, red brightness and green brightness paths. -/
theorem log_once_per_path_fails :
    (∀ (n : Nat) (p : String), failWorld.dev n p = OpenOutcome.openFails 2) ∧
    (runCalls
        [ (LightType.BACKLIGHT, request 0x00FF0000 Flash.NONE 0 0),
          (LightType.BATTERY, request 0x00FF0000 Flash.NONE 0 0),
          (LightType.BACKLIGHT, request 0x00FF0000 Flash.NONE 0 0) ] failWorld).log =
      [ LogEntry.setFailed "0" "/sys/class/backlight/psb-bl/brightness",
        LogEntry.setLightLocked 0x00FF0000 255 0 0,
        LogEntry.writeStrOpenFailed "/sys/class/leds/red/blink",
        LogEntry.setFailed "0" "/sys/class/backlight/psb-bl/brightness" ] ∧
    (∀ p ∈ [ "/sys/class/backlight/psb-bl/brightness", "/sys/class/leds/red/brightness",
        "/sys/class/leds/green/brightness", "/sys/class/leds/red/blink",
        "/sys/class/leds/green/blink" ],
      ∃ d ∈ (runCalls
        [ (LightType.BACKLIGHT, request 0x00FF0000 Flash.NONE 0 0),
          (LightType.BATTERY, request 0x00FF0000 Flash.NONE 0 0),
          (LightType.BACKLIGHT, request 0x00FF0000 Flash.NONE 0 0) ] failWorld).writes,
        d.path = p) ∧
    openFailureCount "/sys/class/backlight/psb-bl/brightness"
      (runCalls
        [ (LightType.BACKLIGHT, request 0x00FF0000 Flash.NONE 0 0),
          (LightType.BATTERY, request 0x00FF0000 Flash.NONE 0 0),
          (LightType.BACKLIGHT, request 0x00FF0000 Flash.NONE 0 0) ] failWorld).log = 2 ∧
    openFailureCount "/sys/class/leds/green/brightness"
      (runCalls
        [ (LightType.BACKLIGHT, request 0x00FF0000 Flash.NONE 0 0),
          (LightType.BATTERY, request 0x00FF0000 Flash.NONE 0 0),
          (LightType.BACKLIGHT, request 0x00FF0000 Flash.NONE 0 0) ] failWorld).log = 0 ∧
    ¬ (∀ p ∈ [ "/sys/class/backlight/psb-bl/brightness", "/sys/class/leds/red/brightness",
        "/sys/class/leds/green/brightness", "/sys/class/leds/red/blink",
        "/sys/class/leds/green/blink" ],
      openFailureCount p
        (runCalls
          [ (LightType.BACKLIGHT, request 0x00FF0000 Flash.NONE 0 0),
            (LightType.BATTERY, request 0x00FF0000 Flash.NONE 0 0),
            (LightType.BACKLIGHT, request 0x00FF0000 Flash.NONE 0 0) ] failWorld).log = 1) := by
  refine ⟨fun _ _ => rfl, by decide, by decide, by decide, by decide, by decide⟩

/-- C14 (amended): over any sequence of `setLight` calls from any world, `write_str`
(the primitive of the four LED paths) logs at most one open failure in total, none
if its flag was already set, and exactly one if the flag becomes set.  A successful
open logs nothing and leaves the flag alone; a failed open with the flag at 0 logs
its path and sets the flag; with the flag set nothing is logged.  Hence the failure
reports added by the calls are exactly the predicted ones: every failed open of the
backlight path, and of the other paths only the first failed open, whatever its
path.  The writes attempted by the calls do not depend on the world, so every call
still attempts each of its writes. -/
theorem log_once_overall (calls : List (LightType × LightState)) (w : World) :
    (∃ l, (runCalls calls w).log = w.log ++ l ∧ warningCount l ≤ 1 ∧
      (w.already_warned ≠ 0 → warningCount l = 0) ∧
      (w.already_warned = 0 → (runCalls calls w).already_warned ≠ 0 →
        warningCount l = 1)) ∧
    (∀ (p str : String) (e : Int), w.already_warned = 0 →
      w.dev w.writes.length p = OpenOutcome.openFails e →
        (write_str p str w).2.log = w.log ++ [LogEntry.writeStrOpenFailed p] ∧
        (write_str p str w).2.already_warned = 1) ∧
    (∀ p str : String, w.already_warned ≠ 0 → (write_str p str w).2.log = w.log) ∧
    (∀ (s : LightState) (e : Int),
      w.dev w.writes.length "/sys/class/backlight/psb-bl/brightness"
          = OpenOutcome.openFails e →
        (setLight LightType.BACKLIGHT s w).2.log = w.log ++
          [LogEntry.setFailed (Nat.repr (s.color % 256))
            "/sys/class/backlight/psb-bl/brightness"]) ∧
    (∀ w1 : World, (runCalls calls w).writes.drop w.writes.length =
      (runCalls calls w1).writes.drop w1.writes.length) ∧
    (∀ (p str : String) (amt errno : Int),
      w.dev w.writes.length p = OpenOutcome.written amt errno →
        (write_str p str w).2.log = w.log ∧
        (write_str p str w).2.already_warned = w.already_warned) ∧
    (∀ (s : LightState) (amt errno : Int),
      w.dev w.writes.length "/sys/class/backlight/psb-bl/brightness"
          = OpenOutcome.written amt errno →
        (setLight LightType.BACKLIGHT s w).2.log = w.log ∧
        (setLight LightType.BACKLIGHT s w).2.already_warned = w.already_warned) ∧
    ((runCalls calls w).dev = w.dev ∧
      failureReports ((runCalls calls w).log.drop w.log.length) =
        expectedReports w.dev w.already_warned w.writes.length
          ((runCalls calls w).writes.drop w.writes.length) ∧
      (runCalls calls w).already_warned =
        expectedFlag w.dev w.already_warned w.writes.length
          ((runCalls calls w).writes.drop w.writes.length)) ∧
    (∀ (pre post : List DeviceWrite) (d : DeviceWrite) (e : Int),
      (runCalls calls w).writes.drop w.writes.length = pre ++ d :: post →
      w.already_warned = 0 →
      (∀ (j : Nat) (x : DeviceWrite), pre[j]? = some x →
        x.path ≠ "/sys/class/backlight/psb-bl/brightness" →
        ∃ amt errno, w.dev (w.writes.length + j) x.path = OpenOutcome.written amt errno) →
      d.path ≠ "/sys/class/backlight/psb-bl/brightness" →
      w.dev (w.writes.length + pre.length) d.path = OpenOutcome.openFails e →
        ((runCalls calls w).log.drop w.log.length).filter isWriteStrWarning =
          [LogEntry.writeStrOpenFailed d.path]) ∧
    ((∀ (j : Nat) (x : DeviceWrite),
        ((runCalls calls w).writes.drop w.writes.length)[j]? = some x →
        x.path ≠ "/sys/class/backlight/psb-bl/brightness" →
        ∃ amt errno, w.dev (w.writes.length + j) x.path = OpenOutcome.written amt errno) →
      ((runCalls calls w).log.drop w.log.length).filter isWriteStrWarning = []) := by
  have hp : LCD_LED ++ BRIGHTNESS = "/sys/class/backlight/psb-bl/brightness" := by decide
  obtain ⟨hdev, hrep, hflag⟩ := runCalls_new_reports calls w
  refine ⟨?_, ?_, ?_, ?_, ?_, ?_, ?_, ⟨hdev, hrep, hflag⟩, ?_, ?_⟩
  · obtain ⟨l, hl, a, b, _, _, f⟩ := runCalls_warns calls w
    exact ⟨l, hl, a, b, f⟩
  · intro p str e hw hd
    obtain ⟨hl, ha⟩ := write_str_log p str w
    rw [hd] at hl ha
    dsimp only at hl ha
    rw [if_pos hw] at hl ha
    exact ⟨hl, ha⟩
  · intro p str hw
    obtain ⟨hl, _⟩ := write_str_log p str w
    rw [hl]
    cases w.dev w.writes.length p with
    | written amt errno => simp
    | openFails errno => simp [hw]
  · intro s e hd
    rw [← hp] at hd ⊢
    exact setLight_backlight_log s w e hd
  · intro w1
    rw [runCalls_writes, runCalls_writes, List.drop_left, List.drop_left]
  · intro p str amt errno hd
    obtain ⟨hl, ha⟩ := write_str_log p str w
    rw [hd] at hl ha
    dsimp only at hl ha
    exact ⟨by rw [hl, List.append_nil], ha⟩
  · intro s amt errno hd
    rw [← hp] at hd
    unfold setLight
    rw [mapFind_backlight]
    dsimp only
    unfold handleBacklight set_int set_str
    dsimp only
    rw [hd]
    exact ⟨rfl, rfl⟩
  · intro pre post d e hws hw hpre hdp hd
    rw [← warnings_of_failureReports, hrep, hws, hw]
    rw [← hp] at hpre hdp
    exact expected_first_failure w.dev pre post d w.writes.length e hpre hdp hd
  · intro hall
    rw [← warnings_of_failureReports, hrep]
    rw [← hp] at hall
    exact (expected_all_succeed w.dev _ w.already_warned w.writes.length hall).1

/-- Witness of C14 (amended): BATTERY, BACKLIGHT, BATTERY in a world where the first
three writes are accepted and every later open fails.  The first failed open is the
fourth write, to green brightness; it is the only warning of `write_str`, and the
backlight failure is reported too.  Two BATTERY calls attempt the same twelve writes
whether nothing opens or everything opens. -/
theorem log_once_overall_witness :
    (runCalls
        [ (LightType.BATTERY, request 0x00FF0000 Flash.NONE 0 0),
          (LightType.BACKLIGHT, request 0x00FF0000 Flash.NONE 0 0),
          (LightType.BATTERY, request 0x00FF0000 Flash.NONE 0 0) ] lateFailWorld).log =
      [ LogEntry.setLightLocked 0x00FF0000 255 0 0,
        LogEntry.writeStrOpenFailed "/sys/class/leds/green/brightness",
        LogEntry.setFailed "0" "/sys/class/backlight/psb-bl/brightness",
        LogEntry.setLightLocked 0x00FF0000 255 0 0 ] ∧
    ((runCalls
        [ (LightType.BATTERY, request 0x00FF0000 Flash.NONE 0 0),
          (LightType.BACKLIGHT, request 0x00FF0000 Flash.NONE 0 0),
          (LightType.BATTERY, request 0x00FF0000 Flash.NONE 0 0) ] lateFailWorld).log.drop
        lateFailWorld.log.length).filter isWriteStrWarning =
      [LogEntry.writeStrOpenFailed "/sys/class/leds/green/brightness"] ∧
    (runCalls
        [ (LightType.BATTERY, request 0x00FF0000 Flash.NONE 0 0),
          (LightType.BATTERY, request 0x00FF0000 Flash.NONE 0 0) ] failWorld).writes.drop
        failWorld.writes.length =
      (runCalls
        [ (LightType.BATTERY, request 0x00FF0000 Flash.NONE 0 0),
          (LightType.BATTERY, request 0x00FF0000 Flash.NONE 0 0) ] okWorld).writes.drop
        okWorld.writes.length ∧
    (runCalls
        [ (LightType.BATTERY, request 0x00FF0000 Flash.NONE 0 0),
          (LightType.BATTERY, request 0x00FF0000 Flash.NONE 0 0) ]
        failWorld).writes.length = 12 :=
  ⟨by decide,
   (log_once_overall
     [ (LightType.BATTERY, request 0x00FF0000 Flash.NONE 0 0),
       (LightType.BACKLIGHT, request 0x00FF0000 Flash.NONE 0 0),
       (LightType.BATTERY, request 0x00FF0000 Flash.NONE 0 0) ] lateFailWorld).2.2.2.2.2.2.2.2.1
     [ ⟨"/sys/class/leds/red/blink", "0\n"⟩, ⟨"/sys/class/leds/green/blink", "0\n"⟩,
       ⟨"/sys/class/leds/red/brightness", "0\n"⟩ ]
     [ ⟨"/sys/class/leds/red/brightness", "255\n"⟩,
       ⟨"/sys/class/leds/green/brightness", "0\n"⟩,
       ⟨"/sys/class/backlight/psb-bl/brightness", "0"⟩,
       ⟨"/sys/class/leds/red/blink", "0\n"⟩, ⟨"/sys/class/leds/green/blink", "0\n"⟩,
       ⟨"/sys/class/leds/red/brightness", "0\n"⟩,
       ⟨"/sys/class/leds/green/brightness", "0\n"⟩,
       ⟨"/sys/class/leds/red/brightness", "255\n"⟩,
       ⟨"/sys/class/leds/green/brightness", "0\n"⟩ ]
     ⟨"/sys/class/leds/green/brightness", "0\n"⟩ 2
     (by decide) rfl
     (fun j x hx _ => by
       have hj : j < 3 := (List.getElem?_eq_some.mp hx).1
       exact ⟨2, 0, by simp [lateFailWorld, hj]⟩)
     (by decide) (by decide),
   (log_once_overall
     [ (LightType.BATTERY, request 0x00FF0000 Flash.NONE 0 0),
       (LightType.BATTERY, request 0x00FF0000 Flash.NONE 0 0) ] failWorld).2.2.2.2.1 okWorld,
   by decide⟩

/-! ## C15 -/

/-- C15: for every request and world, `setLight` on BATTERY, on NOTIFICATIONS and on
ATTENTION return the same status (SUCCESS) and the same resulting world, hence the
same device-write sequence; each such call writes all four LED control paths, and
its writes after an earlier call on any of the three are those it issues alone. -/
theorem led_types_indistinguishable (s s0 : LightState) (w : World) :
    setLight LightType.BATTERY s w = setLight LightType.NOTIFICATIONS s w ∧
    setLight LightType.NOTIFICATIONS s w = setLight LightType.ATTENTION s w ∧
    (setLight LightType.BATTERY s w).1 = Status.SUCCESS ∧
    callWrites LightType.BATTERY s w = callWrites LightType.NOTIFICATIONS s w ∧
    callWrites LightType.NOTIFICATIONS s w = callWrites LightType.ATTENTION s w ∧
    (∀ p ∈ [RED_LED_FILE, GREEN_LED_FILE, RED_BLINK_FILE, GREEN_BLINK_FILE],
      ∃ d ∈ callWrites LightType.BATTERY s w, d.path = p) ∧
    (∀ t0 ∈ [LightType.BATTERY, LightType.NOTIFICATIONS, LightType.ATTENTION],
      ∀ t ∈ [LightType.BATTERY, LightType.NOTIFICATIONS, LightType.ATTENTION],
        callWrites t s (setLight t0 s0 w).2 = callWrites LightType.BATTERY s w) := by
  have hB := setLight_led_eq LightType.BATTERY s w (Or.inl rfl)
  have hN := setLight_led_eq LightType.NOTIFICATIONS s w (Or.inr (Or.inl rfl))
  have hA := setLight_led_eq LightType.ATTENTION s w (Or.inr (Or.inr rfl))
  have hcB : callWrites LightType.BATTERY s w = callWrites LightType.NOTIFICATIONS s w := by
    unfold callWrites; rw [hB, hN]
  have hcN : callWrites LightType.NOTIFICATIONS s w = callWrites LightType.ATTENTION s w := by
    unfold callWrites; rw [hN, hA]
  refine ⟨by rw [hB, hN], by rw [hN, hA], by rw [hB], hcB, hcN, ?_, ?_⟩
  · intro p hp
    simp only [List.mem_cons, List.mem_singleton, List.not_mem_nil, or_false] at hp
    exact led_writes_all_paths _ s w (Or.inl rfl) p hp
  · intro t0 _ t ht
    simp only [List.mem_cons, List.mem_singleton, List.not_mem_nil, or_false] at ht
    rw [callWrites_world_indep t s _ w]
    rcases ht with h | h | h <;> subst h
    · rfl
    · exact hcB.symm
    · exact (hcB.trans hcN).symm

/-! ## C16 -/

/-- C16: for every request, every write of `setLight` on BACKLIGHT goes to the
backlight brightness path and to none of the four LED paths, and every write of
`setLight` on BATTERY, NOTIFICATIONS or ATTENTION goes to one of the four LED paths
and never to the backlight brightness path. -/
theorem path_separation (s : LightState) (w : World) :
    (∀ d ∈ callWrites LightType.BACKLIGHT s w,
      d.path = "/sys/class/backlight/psb-bl/brightness" ∧
      d.path ≠ "/sys/class/leds/red/brightness" ∧
      d.path ≠ "/sys/class/leds/green/brightness" ∧
      d.path ≠ "/sys/class/leds/red/blink" ∧
      d.path ≠ "/sys/class/leds/green/blink") ∧
    (∀ t ∈ [LightType.BATTERY, LightType.NOTIFICATIONS, LightType.ATTENTION],
      ∀ d ∈ callWrites t s w,
        (d.path = "/sys/class/leds/red/brightness" ∨
          d.path = "/sys/class/leds/green/brightness" ∨
          d.path = "/sys/class/leds/red/blink" ∨
          d.path = "/sys/class/leds/green/blink") ∧
        d.path ≠ "/sys/class/backlight/psb-bl/brightness") := by
  constructor
  · intro d hd
    rw [callWrites_backlight] at hd
    simp only [List.mem_singleton] at hd
    subst hd
    dsimp only
    exact ⟨by decide, by decide, by decide, by decide, by decide⟩
  · intro t ht d hd
    simp only [List.mem_cons, List.mem_singleton, List.not_mem_nil, or_false] at ht
    have hp := led_paths_of_mem t s w ht d hd
    rcases hp with h | h | h | h <;> rw [h] <;> exact ⟨by decide, by decide⟩

/-! ## C17 -/

/-- C17: for every request on BATTERY, NOTIFICATIONS or ATTENTION (with `int32_t`
durations), both channels end up off exactly when the low 24 bits of color are
zero: in steady mode the last texts written to red and to green brightness are both
`0`, in blink mode the last blink commands of red and green both have enable `0`,
if and only if `color & 0x00FFFFFF = 0`.  When the blue byte is not zero both
channels end up on: steady mode ends with the blue value on both brightness paths,
blink mode with enable `1` on both blink paths. -/
theorem led_off_iff_black (t : LightType) (s : LightState) (w : World)
    (ht : t = LightType.BATTERY ∨ t = LightType.NOTIFICATIONS ∨ t = LightType.ATTENTION)
    (hon : IsInt32 s.flashOnMs) (hoff : IsInt32 s.flashOffMs) :
    (¬ (s.flashMode = Flash.TIMED ∨ s.flashMode = Flash.HARDWARE) →
      ((lastValue "/sys/class/leds/red/brightness" (callWrites t s w) = some "0\n" ∧
        lastValue "/sys/class/leds/green/brightness" (callWrites t s w) = some "0\n") ↔
        s.color &&& 0x00FFFFFF = 0)) ∧
    ((s.flashMode = Flash.TIMED ∨ s.flashMode = Flash.HARDWARE) →
      ((lastValue "/sys/class/leds/red/blink" (callWrites t s w) =
          some (fmt_d 0 ++ " " ++ fmt_d s.flashOnMs ++ " " ++ fmt_d s.flashOffMs ++ "\n") ∧
        lastValue "/sys/class/leds/green/blink" (callWrites t s w) =
          some (fmt_d 0 ++ " " ++ fmt_d s.flashOnMs ++ " " ++ fmt_d s.flashOffMs ++ "\n")) ↔
        s.color &&& 0x00FFFFFF = 0)) ∧
    (s.color &&& 0xFF ≠ 0 →
      ¬ (s.flashMode = Flash.TIMED ∨ s.flashMode = Flash.HARDWARE) →
        lastValue "/sys/class/leds/red/brightness" (callWrites t s w) =
          some (Nat.repr (s.color % 256) ++ "\n") ∧
        lastValue "/sys/class/leds/green/brightness" (callWrites t s w) =
          some (Nat.repr (s.color % 256) ++ "\n") ∧
        Nat.repr (s.color % 256) ++ "\n" ≠ "0\n") ∧
    (s.color &&& 0xFF ≠ 0 →
      (s.flashMode = Flash.TIMED ∨ s.flashMode = Flash.HARDWARE) →
        lastValue "/sys/class/leds/red/blink" (callWrites t s w) =
          some (fmt_d 1 ++ " " ++ fmt_d s.flashOnMs ++ " " ++ fmt_d s.flashOffMs ++ "\n") ∧
        lastValue "/sys/class/leds/green/blink" (callWrites t s w) =
          some (fmt_d 1 ++ " " ++ fmt_d s.flashOnMs ++ " " ++ fmt_d s.flashOffMs ++ "\n")) := by
  have hR : lastValue "/sys/class/leds/red/brightness" = lastValue RED_LED_FILE := rfl
  have hG : lastValue "/sys/class/leds/green/brightness" = lastValue GREEN_LED_FILE := rfl
  have hRB : lastValue "/sys/class/leds/red/blink" = lastValue RED_BLINK_FILE := rfl
  have hGB : lastValue "/sys/class/leds/green/blink" = lastValue GREEN_BLINK_FILE := rfl
  rw [hR, hG, hRB, hGB, low24, low_byte]
  refine ⟨?_, ?_, ?_, ?_⟩
  · intro hm
    push_neg at hm
    rw [steady_led_writes t s w ht hm.1 hm.2, lastValue_steady_red, lastValue_steady_green,
      Option.some_inj, Option.some_inj,
      channel_text_zero _ (ledChannels_fst_byte s.color),
      channel_text_zero _ (ledChannels_snd_byte s.color)]
    exact ledChannels_zero_iff s.color
  · intro hm
    rw [blink_led_writes t s w ht hm hon hoff, lastValue_blink_red, lastValue_blink_green,
      Option.some_inj, Option.some_inj]
    simp only [String.append_assoc]
    rw [enable_text_zero, enable_text_zero]
    exact ledChannels_zero_iff s.color
  · intro hb hm
    push_neg at hm
    rw [steady_led_writes t s w ht hm.1 hm.2, lastValue_steady_red, lastValue_steady_green,
      ledChannels_blue s.color hb]
    dsimp only
    rw [fmt_d_ofNat]
    refine ⟨rfl, rfl, ?_⟩
    intro h0
    exact hb ((byte_text_zero _ (Nat.mod_lt _ (by norm_num))).mp h0)
  · intro hb hm
    rw [blink_led_writes t s w ht hm hon hoff, lastValue_blink_red, lastValue_blink_green,
      ledChannels_blue s.color hb]
    dsimp only
    have hne : ((s.color % 256 : Nat) : Int) ≠ 0 := by omega
    rw [if_pos hne]
    exact ⟨rfl, rfl⟩

/-- Witness of C17: on BATTERY, black with alpha (`0xFF000000`) ends off in both
modes, and blue `0x00000040` ends with 64 on both brightness paths. -/
theorem led_off_iff_black_witness :
    (LightType.BATTERY = LightType.BATTERY ∨ LightType.BATTERY = LightType.NOTIFICATIONS ∨
      LightType.BATTERY = LightType.ATTENTION) ∧
    IsInt32 (request 0xFF000000 Flash.TIMED 500 250).flashOnMs ∧
    IsInt32 (request 0xFF000000 Flash.TIMED 500 250).flashOffMs ∧
    (lastValue "/sys/class/leds/red/blink"
        (callWrites LightType.BATTERY (request 0xFF000000 Flash.TIMED 500 250) okWorld) =
        some "0 500 250\n" ∧
      lastValue "/sys/class/leds/green/blink"
        (callWrites LightType.BATTERY (request 0xFF000000 Flash.TIMED 500 250) okWorld) =
        some "0 500 250\n") ∧
    (lastValue "/sys/class/leds/red/brightness"
        (callWrites LightType.BATTERY (request 0x00000040 Flash.NONE 0 0) okWorld) =
        some "64\n" ∧
      lastValue "/sys/class/leds/green/brightness"
        (callWrites LightType.BATTERY (request 0x00000040 Flash.NONE 0 0) okWorld) =
        some "64\n" ∧
      "64\n" ≠ "0\n") :=
  ⟨by decide, by decide, by decide,
   ((led_off_iff_black LightType.BATTERY (request 0xFF000000 Flash.TIMED 500 250) okWorld
     (by decide) (by decide) (by decide)).2.1 (by decide)).mpr (by decide),
   (led_off_iff_black LightType.BATTERY (request 0x00000040 Flash.NONE 0 0) okWorld
     (by decide) (by decide) (by decide)).2.2.1 (by decide) (by decide)⟩

/-! ## C18 -/

/-- C18: `getSupportedTypes` returns BACKLIGHT, BATTERY, NOTIFICATIONS, ATTENTION in
this order, which is strictly ascending in the numeric value of the enumeration (as
is the key order of every table built by map insertion), leaves the world as it
is, and returns the same sequence after any sequence of `setLight` calls. -/
theorem getSupportedTypes_ascending (w : World) (calls : List (LightType × LightState))
    (init : List (LightType × Handler)) :
    (getSupportedTypes w).1 =
      [LightType.BACKLIGHT, LightType.BATTERY, LightType.NOTIFICATIONS,
        LightType.ATTENTION] ∧
    (getSupportedTypes w).1.Pairwise (fun a b => a.val < b.val) ∧
    ((init.foldl (fun m e => mapInsert e.1 e.2 m) []).map Prod.fst).Pairwise
      (fun a b => a.val < b.val) ∧
    (getSupportedTypes w).2 = w ∧
    (getSupportedTypes (runCalls calls w)).1 = (getSupportedTypes w).1 ∧
    (getSupportedTypes (getSupportedTypes w).2).1 = (getSupportedTypes w).1 := by
  refine ⟨getSupportedTypes_eq w, ?_, ?_, rfl, ?_, rfl⟩
  · exact foldl_mapInsert_ascending _ [] List.Pairwise.nil
  · exact foldl_mapInsert_ascending init [] List.Pairwise.nil
  · rw [getSupportedTypes_eq, getSupportedTypes_eq]

/-! ## C19 -/

/-- C19: for every `int32_t` value the text `write_int` formats has at most 19
characters, so `snprintf` with the 20-byte buffer keeps all of it, and for all
`int32_t` values of `value`, `on_ms` and `off_ms` the text `write_blink` formats has
at most 99 characters, so the 100-byte buffer keeps all of it; the text written is
the full rendering, ending in a newline.  Every character is ASCII, so characters
and bytes coincide. -/
theorem no_truncation (path : String) (value on_ms off_ms : Int) (w : World)
    (hv : IsInt32 value) (hon : IsInt32 on_ms) (hoff : IsInt32 off_ms) :
    (fmt_d value ++ "\n").length ≤ 19 ∧
    snprintf 20 (fmt_d value ++ "\n") = fmt_d value ++ "\n" ∧
    (write_int path value w).2.writes = w.writes ++ [⟨path, fmt_d value ++ "\n"⟩] ∧
    (fmt_d value ++ " " ++ fmt_d on_ms ++ " " ++ fmt_d off_ms ++ "\n").length ≤ 99 ∧
    snprintf 100 (fmt_d value ++ " " ++ fmt_d on_ms ++ " " ++ fmt_d off_ms ++ "\n") =
      fmt_d value ++ " " ++ fmt_d on_ms ++ " " ++ fmt_d off_ms ++ "\n" ∧
    (write_blink path value on_ms off_ms w).2.writes = w.writes ++
      [⟨path, fmt_d value ++ " " ++ fmt_d on_ms ++ " " ++ fmt_d off_ms ++ "\n"⟩] ∧
    (fmt_d value ++ "\n").data.getLast? = some '\n' ∧
    (fmt_d value ++ " " ++ fmt_d on_ms ++ " " ++ fmt_d off_ms ++ "\n").data.getLast?
      = some '\n' ∧
    (∀ c ∈ (fmt_d value ++ "\n").data, c.toNat < 128) ∧
    (∀ c ∈ (fmt_d value ++ " " ++ fmt_d on_ms ++ " " ++ fmt_d off_ms ++ "\n").data,
      c.toNat < 128) := by
  have h1 := fmt_d_length_le value hv
  have h2 := fmt_d_length_le on_ms hon
  have h3 := fmt_d_length_le off_ms hoff
  have hn : "\n".length = 1 := rfl
  have hb : " ".length = 1 := rfl
  have hnl : ∀ t : String, (t ++ "\n").data.getLast? = some '\n' := by
    intro t; rw [String.data_append]; exact List.getLast?_concat _
  refine ⟨?_, write_int_text value hv, ?_, ?_, write_blink_text value on_ms off_ms hv hon hoff,
    ?_, hnl _, hnl _, ?_, ?_⟩
  · rw [String.length_append]; omega
  · rw [write_int_writes, write_int_text value hv]
  · simp only [String.length_append]; omega
  · rw [write_blink_writes, write_blink_text value on_ms off_ms hv hon hoff]
  · exact append_ascii _ _ (fmt_d_ascii value) newline_ascii
  · exact append_ascii _ _ (append_ascii _ _ (append_ascii _ _ (append_ascii _ _
      (append_ascii _ _ (fmt_d_ascii value) space_ascii) (fmt_d_ascii on_ms)) space_ascii)
      (fmt_d_ascii off_ms)) newline_ascii

/-- Witness of C19: the extreme values `-2147483648` and `2147483647`. -/
theorem no_truncation_witness :
    IsInt32 (-2147483648) ∧ IsInt32 2147483647 ∧
    (write_int "/sys/class/leds/red/brightness" (-2147483648) okWorld).2.writes =
      [⟨"/sys/class/leds/red/brightness", "-2147483648\n"⟩] ∧
    (write_blink "/sys/class/leds/red/blink" (-2147483648) 2147483647 (-2147483648)
        okWorld).2.writes =
      [⟨"/sys/class/leds/red/blink", "-2147483648 2147483647 -2147483648\n"⟩] :=
  ⟨by decide, by decide,
   (no_truncation "/sys/class/leds/red/brightness" (-2147483648) 2147483647 (-2147483648)
     okWorld (by decide) (by decide) (by decide)).2.2.1,
   (no_truncation "/sys/class/leds/red/blink" (-2147483648) 2147483647 (-2147483648)
     okWorld (by decide) (by decide) (by decide)).2.2.2.2.2.1⟩

end Light
